import Mathlib

/-!
# Verification development for `src/main.cpp`

The program is one procedure, `main`, that talks to GLFW and OpenGL, plus the
callbacks `KeyCallback` and `ErrorCallback`.  The embedding records every
library call `main` makes and every line it writes, in order, as a list of
`Event`s.  Everything the libraries answer (does `glfwInit` succeed, which
window pointer and which object names are handed out, the five compile/link
statuses, the info logs, the close flag read in each iteration) is an explicit
input, `Env`.  The render loop may run for ever, so `main` takes a fuel: the
number of iterations it is followed for.

The callbacks are run by GLFW, not by `main`; they are embedded as functions of
their own.  What `KeyCallback` does to the close flag reaches `main` through
the answers of `glfwWindowShouldClose`.

`glGenBuffers (2, &VBO2)` and `glGenVertexArrays (2, &VAO2)` store two names
from the address of a single `unsigned int` on.  The first is the value of the
variable; where the second lands is a matter of memory layout, which is an
input of the run too.  `VBO1` and `VAO1` are declared together with `VBO2` and
`VAO2` and are written before and read after these calls; when `VBO1` (`VAO1`)
is the `unsigned int` next after `VBO2` (`VAO2`), as with g++ 12 without
optimisation, the second name replaces its value, and the program goes on with
that name.  `Env.VBO1` and `Env.VAO1` are the values the program reads.  In
the other layout the second name lands on no variable that `main` reads
afterwards.
-/

namespace Untitled1

/-! ## Data model -/

/-- A `GLFWwindow*`; the null pointer is `0`. -/
abbrev Window := Nat

/-- An OpenGL object name (`GLuint`, `unsigned int`); `0` names no object. -/
abbrev GLuint := Nat

/-- The two process exit statuses of `<stdlib.h>` the program uses. -/
inductive ExitStatus where
  | EXIT_SUCCESS
  | EXIT_FAILURE
  deriving DecidableEq, Repr

/-- The OpenGL enumerants that occur in `main`, kept symbolic. -/
inductive GLenum where
  | GL_ARRAY_BUFFER
  | GL_STATIC_DRAW
  | GL_VERTEX_SHADER
  | GL_FRAGMENT_SHADER
  | GL_COMPILE_STATUS
  | GL_LINK_STATUS
  | GL_FLOAT
  | GL_TRIANGLES
  | GL_FRONT_AND_BACK
  | GL_LINE
  | GL_FILL
  | GL_COLOR_BUFFER_BIT
  deriving DecidableEq, Repr

/-- The window hints that occur in `main`, kept symbolic. -/
inductive GLFWhint where
  | GLFW_CONTEXT_VERSION_MAJOR
  | GLFW_CONTEXT_VERSION_MINOR
  | GLFW_OPENGL_PROFILE
  | GLFW_OPENGL_DEBUG_CONTEXT
  deriving DecidableEq, Repr

/-- The value `GLFW_TRUE` of `glfw3.h`. -/
def GLFW_TRUE : Int := 1

/-- The value `GLFW_PRESS` of `glfw3.h`. -/
def GLFW_PRESS : Int := 1

/-- The value `GLFW_KEY_ESCAPE` of `glfw3.h`. -/
def GLFW_KEY_ESCAPE : Int := 256

/-- The value `GLFW_OPENGL_CORE_PROFILE` of `glfw3.h`. -/
def GLFW_OPENGL_CORE_PROFILE : Int := 0x00032001

/-- The size of a `float` in bytes. -/
def sizeof_float : Nat := 4

/-- One step of the program that the outside world can see: a GLFW or OpenGL
call with its arguments (and, for a call that answers, the answer), or a write
to standard output. -/
inductive Event where
  | glfwInit (result : Bool)
  | glfwWindowHint (hint : GLFWhint) (value : Int)
  | glfwCreateWindow (width height : Nat) (title : String) (result : Window)
  | glfwSetErrorCallback
  | glfwMakeContextCurrent (window : Window)
  | gladLoadGLLoader
  | glfwTerminate
  | glfwSetKeyCallback (window : Window)
  | glfwSwapInterval (interval : Int)
  | glGenBuffers (n : Nat) (names : List GLuint)
  | glBindBuffer (target : GLenum) (buffer : GLuint)
  | glBufferData (target : GLenum) (size : Nat) (data : List ℚ) (usage : GLenum)
  | glCreateShader (type : GLenum) (result : GLuint)
  | glShaderSource (shader : GLuint) (count : Nat) (source : String)
  | glCompileShader (shader : GLuint)
  | glGetShaderiv (shader : GLuint) (pname : GLenum) (result : Int)
  | glGetShaderInfoLog (shader : GLuint) (bufSize : Nat) (infoLog : String)
  | cout (text : String)
  | glCreateProgram (result : GLuint)
  | glAttachShader (program shader : GLuint)
  | glLinkProgram (program : GLuint)
  | glGetProgramiv (program : GLuint) (pname : GLenum) (result : Int)
  | glGetProgramInfoLog (program : GLuint) (bufSize : Nat) (infoLog : String)
  | glDeleteShader (shader : GLuint)
  | glUseProgram (program : GLuint)
  | glGenVertexArrays (n : Nat) (names : List GLuint)
  | glBindVertexArray (array : GLuint)
  | glVertexAttribPointer (index size : Nat) (type : GLenum) (normalized : Bool)
      (stride pointer : Nat)
  | glEnableVertexAttribArray (index : Nat)
  | glfwGetTime
  | glfwWindowShouldClose (window : Window) (result : Bool)
  | glfwSetWindowShouldClose (window : Window) (value : Int)
  | glClearColor (red green blue alpha : ℚ)
  | glClear (mask : GLenum)
  | glDrawArrays (mode : GLenum) (first count : Nat)
  | glPolygonMode (face mode : GLenum)
  | glfwSwapBuffers (window : Window)
  | glfwPollEvents
  | glfwDestroyWindow (window : Window)
  deriving DecidableEq, Repr

/-! ## `KeyCallback` (main.cpp 17-26) -/

/-- The key callback: `scancode` and `mods` are evaluated and dropped; the one
call is made when `key == GLFW_KEY_ESCAPE && action == GLFW_PRESS`. -/
def KeyCallback (window : Window) (key scancode action mods : Int) : List Event :=
  let _ := scancode
  let _ := mods
  if key = GLFW_KEY_ESCAPE ∧ action = GLFW_PRESS then
    [Event.glfwSetWindowShouldClose window GLFW_TRUE]
  else
    []

/-- The error callback (main.cpp 12-15): one line on standard output.  GLFW
calls it, not `main`, so its output is not part of the trace of `main`. -/
def ErrorCallback (error : Int) (description : String) : List Event :=
  [Event.cout ("Error: " ++ toString error ++ ", " ++ description ++ "\n")]

/-- The close flags GLFW keeps, one per window. -/
abbrev CloseFlags := Window → Bool

/-- What a call does to the close flags: `glfwSetWindowShouldClose (w, v)` sets
the flag of `w` to `v != 0`; no other call of the program writes a flag. -/
def closeFlagsStep (flags : CloseFlags) : Event → CloseFlags
  | Event.glfwSetWindowShouldClose w v => fun x => if x = w then decide (v ≠ 0) else flags x
  | _ => flags

/-- The close flags after a sequence of calls. -/
def closeFlagsAfter (flags : CloseFlags) (calls : List Event) : CloseFlags :=
  calls.foldl closeFlagsStep flags

/-! ## What the libraries answer -/

/-- The five status checks of `main`, in program order. -/
inductive Check where
  | vertexCompile
  | fragmentCompile
  | fragment2Compile
  | programLink
  | program2Link
  deriving DecidableEq, Repr

/-- Everything the program reads from GLFW and the OpenGL driver in one run. -/
structure Env where
  /-- The answer of `glfwInit ()`. -/
  glfwInit : Bool
  /-- The answer of `glfwCreateWindow`; `0` is the null pointer. -/
  glfwCreateWindow : Window
  /-- The name `glGenBuffers (1, &VBO1)` stores. -/
  genBuffers1 : GLuint
  /-- The two names `glGenBuffers (2, &VBO2)` stores from `&VBO2` on. -/
  genBuffers2 : GLuint × GLuint
  /-- The answer of `glCreateShader (GL_VERTEX_SHADER)`. -/
  createVertexShader : GLuint
  /-- The answer of the first `glCreateShader (GL_FRAGMENT_SHADER)`. -/
  createFragmentShader : GLuint
  /-- The answer of the second `glCreateShader (GL_FRAGMENT_SHADER)`. -/
  createFragmentShader2 : GLuint
  /-- The answer of the first `glCreateProgram ()`. -/
  createProgram : GLuint
  /-- The answer of the second `glCreateProgram ()`. -/
  createProgram2 : GLuint
  /-- The name `glGenVertexArrays (1, &VAO1)` stores. -/
  genVertexArrays1 : GLuint
  /-- The two names `glGenVertexArrays (2, &VAO2)` stores from `&VAO2` on. -/
  genVertexArrays2 : GLuint × GLuint
  /-- The value of `success` after each of the five status queries. -/
  status : Check → Int
  /-- The content of `infoLog` after the info log query of each check. -/
  infoLog : Check → String
  /-- The answer of `glfwWindowShouldClose (w)` in iteration `i` (from 0) of the
  render loop. -/
  shouldClose : Nat → Window → Bool
  /-- Memory layout: whether `VBO1` is the `unsigned int` next after `VBO2`, so
  that the second name `glGenBuffers (2, &VBO2)` stores lands on `VBO1`; when
  not, that name lands on no variable `main` reads afterwards. -/
  secondNameOnVBO1 : Bool
  /-- Memory layout: whether `VAO1` is the `unsigned int` next after `VAO2`, so
  that the second name `glGenVertexArrays (2, &VAO2)` stores lands on `VAO1`;
  when not, that name lands on no variable `main` reads afterwards. -/
  secondNameOnVAO1 : Bool

/-- The value of `VBO1` when the program reads it (line 123): the name
`glGenBuffers (1, &VBO1)` stored (line 111), unless the second name of
`glGenBuffers (2, &VBO2)` (line 112) has landed on `VBO1` since. -/
def Env.VBO1 (env : Env) : GLuint :=
  if env.secondNameOnVBO1 then env.genBuffers2.2 else env.genBuffers1

/-- The value of `VAO1` when the program reads it (lines 488, 618): the name
`glGenVertexArrays (1, &VAO1)` stored (line 476), unless the second name of
`glGenVertexArrays (2, &VAO2)` (line 477) has landed on `VAO1` since. -/
def Env.VAO1 (env : Env) : GLuint :=
  if env.secondNameOnVAO1 then env.genVertexArrays2.2 else env.genVertexArrays1

/-- How far a run got: the calls made so far, and the exit status once the
process has exited (`none`: still in the render loop when the fuel ran out). -/
structure Outcome where
  trace : List Event
  exit : Option ExitStatus

/-! ## The static data of `main` (main.cpp 82-97, 203-209, 286-302)

A `float` is recorded as the rational number its literal denotes.  The vertex
coordinates and `gap` are dyadic, so their `float` arithmetic is exact. -/

/-- `float gap = 1.0f/8.0f;` -/
def gap : ℚ := 1.0 / 8.0

/-- `float vertices1[]`: the first triangle. -/
def vertices1 : List ℚ :=
  [ 0.5,  0.5, 0.0,
    0.5, -0.5, 0.0,
   -0.5,  0.5, 0.0]

/-- `float vertices2[]`: the second triangle. -/
def vertices2 : List ℚ :=
  [ 0.5 - gap, -0.5 - gap, 0.0 - gap,
   -0.5 - gap, -0.5 - gap, 0.0 - gap,
   -0.5 - gap,  0.5 - gap, 0.0 - gap]

/-- The C string `vertexShaderSource`. -/
def vertexShaderSource : String :=
  "#version 330 core\n" ++
  "layout (location = 0) in vec3 aPos;" ++
  "void main()" ++
  "\x7b" ++
  "  gl_Position = vec4(aPos.x, aPos.y, aPos.z, 1.0);" ++
  "\x7d"

/-- The C string `fragSource`. -/
def fragSource : String :=
  "#version 330 core\n" ++
  "out vec4 FragColor;" ++
  "" ++
  "void main()" ++
  "\x7b" ++
  "  FragColor = vec4(1.0f, 0.5f, 0.2f, 1.0f);" ++
  "\x7d"

/-- The C string `fragSource2`. -/
def fragSource2 : String :=
  "#version 330 core\n" ++
  "out vec4 FragColor;" ++
  "" ++
  "void main()" ++
  "\x7b" ++
  "  FragColor = vec4(1.0f, 0.0f, 0.0f, 1.0f);" ++
  "\x7d"

/-- The text `std::cout << message << infoLog << std::endl` writes. -/
def diagnostic (message infoLog : String) : String :=
  message ++ infoLog ++ "\n"

/-! ## `main` (main.cpp 28-646) -/

/-- Lines 35-55: from `glfwInit` to `gladLoadGLLoader`, taken when `glfwInit`
succeeded.  The window loop `for (count = 0; count < 1; count++)` has the one
iteration `count = 0`; `"glfw window" + count` is the literal advanced by
`count` characters. -/
def windowSetup (env : Env) (count : Nat) : List Event :=
  [ Event.glfwInit true,
    Event.glfwWindowHint GLFWhint.GLFW_CONTEXT_VERSION_MAJOR 3,
    Event.glfwWindowHint GLFWhint.GLFW_CONTEXT_VERSION_MINOR 3,
    Event.glfwWindowHint GLFWhint.GLFW_OPENGL_PROFILE GLFW_OPENGL_CORE_PROFILE,
    Event.glfwWindowHint GLFWhint.GLFW_OPENGL_DEBUG_CONTEXT GLFW_TRUE,
    Event.glfwCreateWindow 640 480 ("glfw window".drop count) env.glfwCreateWindow,
    Event.glfwSetErrorCallback,
    Event.glfwMakeContextCurrent env.glfwCreateWindow,
    Event.gladLoadGLLoader ]

/-- Lines 110-133: the two `glGenBuffers` calls and the upload of `vertices1`.
`VBO2` is the first of the two names the second call stores; `VBO1` is read
after both calls. -/
def bufferSetup (env : Env) : List Event :=
  let VBO1 := env.VBO1
  [ Event.glGenBuffers 1 [env.genBuffers1],
    Event.glGenBuffers 2 [env.genBuffers2.1, env.genBuffers2.2],
    Event.glBindBuffer GLenum.GL_ARRAY_BUFFER VBO1,
    Event.glBufferData GLenum.GL_ARRAY_BUFFER (vertices1.length * sizeof_float) vertices1
      GLenum.GL_STATIC_DRAW ]

/-- Lines 219-262: the vertex shader and its compile check. -/
def vertexShaderSetup (env : Env) : List Event :=
  let vertexShader := env.createVertexShader
  let success := env.status Check.vertexCompile
  [ Event.glCreateShader GLenum.GL_VERTEX_SHADER vertexShader,
    Event.glShaderSource vertexShader 1 vertexShaderSource,
    Event.glCompileShader vertexShader,
    Event.glGetShaderiv vertexShader GLenum.GL_COMPILE_STATUS success ] ++
  (if success = 0 then
    [ Event.glGetShaderInfoLog vertexShader 512 (env.infoLog Check.vertexCompile),
      Event.cout (diagnostic "ERROR::SHADER::VERTEX::COMPILATION_FAILED\n"
        (env.infoLog Check.vertexCompile)) ]
  else [])

/-- Lines 314-338: the two fragment shaders and their compile checks. -/
def fragmentShaderSetup (env : Env) : List Event :=
  let fragmentShader := env.createFragmentShader
  let fragmentShader2 := env.createFragmentShader2
  [ Event.glCreateShader GLenum.GL_FRAGMENT_SHADER fragmentShader,
    Event.glCreateShader GLenum.GL_FRAGMENT_SHADER fragmentShader2,
    Event.glShaderSource fragmentShader 1 fragSource,
    Event.glCompileShader fragmentShader,
    Event.glShaderSource fragmentShader2 1 fragSource2,
    Event.glCompileShader fragmentShader2,
    Event.glGetShaderiv fragmentShader GLenum.GL_COMPILE_STATUS
      (env.status Check.fragmentCompile) ] ++
  (if env.status Check.fragmentCompile = 0 then
    [ Event.glGetShaderInfoLog fragmentShader 512 (env.infoLog Check.fragmentCompile),
      Event.cout (diagnostic "ERROR::SHADER::FRAGMENT::COMPILATION_FAILED\n"
        (env.infoLog Check.fragmentCompile)) ]
  else []) ++
  [ Event.glGetShaderiv fragmentShader2 GLenum.GL_COMPILE_STATUS
      (env.status Check.fragment2Compile) ] ++
  (if env.status Check.fragment2Compile = 0 then
    [ Event.glGetShaderInfoLog fragmentShader2 512 (env.infoLog Check.fragment2Compile),
      Event.cout (diagnostic "ERROR::SHADER2::FRAGMENT2::COMPILATION_FAILED\n"
        (env.infoLog Check.fragment2Compile)) ]
  else [])

/-- Lines 355-414: the two programs, their link checks, the shader deletions
and the two `glUseProgram` calls. -/
def programSetup (env : Env) : List Event :=
  let vertexShader := env.createVertexShader
  let fragmentShader := env.createFragmentShader
  let fragmentShader2 := env.createFragmentShader2
  let shaderProgram := env.createProgram
  let shaderProgram2 := env.createProgram2
  [ Event.glCreateProgram shaderProgram,
    Event.glCreateProgram shaderProgram2,
    Event.glAttachShader shaderProgram vertexShader,
    Event.glAttachShader shaderProgram fragmentShader,
    Event.glAttachShader shaderProgram2 vertexShader,
    Event.glAttachShader shaderProgram2 fragmentShader2,
    Event.glLinkProgram shaderProgram,
    Event.glLinkProgram shaderProgram2,
    Event.glGetProgramiv shaderProgram GLenum.GL_LINK_STATUS (env.status Check.programLink) ] ++
  (if env.status Check.programLink = 0 then
    [ Event.glGetProgramInfoLog shaderProgram 512 (env.infoLog Check.programLink),
      Event.cout (diagnostic "ERROR::SHADER::PROGRAM::LINKING_FAILED\n"
        (env.infoLog Check.programLink)) ]
  else []) ++
  [ Event.glGetProgramiv shaderProgram2 GLenum.GL_LINK_STATUS
      (env.status Check.program2Link) ] ++
  (if env.status Check.program2Link = 0 then
    [ Event.glGetProgramInfoLog shaderProgram2 512 (env.infoLog Check.program2Link),
      Event.cout (diagnostic "ERROR::SHADER2::PROGRAM2::LINKING_FAILED\n"
        (env.infoLog Check.program2Link)) ]
  else []) ++
  [ Event.glDeleteShader vertexShader,
    Event.glDeleteShader fragmentShader,
    Event.glDeleteShader fragmentShader2,
    Event.glUseProgram shaderProgram,
    Event.glUseProgram shaderProgram2 ]

/-- Lines 475-583: the two vertex arrays, the upload of `vertices2`, and
`glfwGetTime`.  `VAO2` and `VBO2` are the first of the two names their
generating calls store; `VAO1` is read after both `glGenVertexArrays` calls. -/
def vertexArraySetup (env : Env) : List Event :=
  let VBO2 := env.genBuffers2.1
  let VAO1 := env.VAO1
  let VAO2 := env.genVertexArrays2.1
  [ Event.glGenVertexArrays 1 [env.genVertexArrays1],
    Event.glGenVertexArrays 2 [env.genVertexArrays2.1, env.genVertexArrays2.2],
    Event.glBindVertexArray VAO1,
    Event.glVertexAttribPointer 0 3 GLenum.GL_FLOAT false (3 * sizeof_float) 0,
    Event.glEnableVertexAttribArray 0,
    Event.glBindVertexArray VAO2,
    Event.glBindBuffer GLenum.GL_ARRAY_BUFFER VBO2,
    Event.glBufferData GLenum.GL_ARRAY_BUFFER (vertices2.length * sizeof_float) vertices2
      GLenum.GL_STATIC_DRAW,
    Event.glVertexAttribPointer 0 3 GLenum.GL_FLOAT false (3 * sizeof_float) 0,
    Event.glEnableVertexAttribArray 0,
    Event.glfwGetTime ]

/-- Lines 590-604: the lambda run on one window.  The accumulator is the calls
made so far and the static `allWindowsClosed`. -/
def windowCheck (shouldClose : Window → Bool) (acc : List Event × Bool)
    (theWindow : Window) : List Event × Bool :=
  if theWindow = 0 then
    acc
  else if shouldClose theWindow then
    (acc.1 ++ [ Event.glfwWindowShouldClose theWindow true,
                Event.glfwSetWindowShouldClose theWindow GLFW_TRUE ], acc.2)
  else
    (acc.1 ++ [ Event.glfwWindowShouldClose theWindow false ], false)

/-- Lines 588-604: `allWindowsClosed = true;` and the `std::for_each` over the
window list. -/
def closeCheck (shouldClose : Window → Bool) (window : List Window) : List Event × Bool :=
  window.foldl (windowCheck shouldClose) ([], true)

/-- Lines 613-634: the rest of the loop body. -/
def render (window : List Window) (shaderProgram VAO1 shaderProgram2 VAO2 : GLuint) :
    List Event :=
  [ Event.glClearColor 0.2 0.3 0.3 1.0,
    Event.glClear GLenum.GL_COLOR_BUFFER_BIT,
    Event.glUseProgram shaderProgram,
    Event.glBindVertexArray VAO1,
    Event.glDrawArrays GLenum.GL_TRIANGLES 0 3,
    Event.glUseProgram shaderProgram2,
    Event.glBindVertexArray VAO2,
    Event.glPolygonMode GLenum.GL_FRONT_AND_BACK GLenum.GL_LINE,
    Event.glDrawArrays GLenum.GL_TRIANGLES 0 3,
    Event.glPolygonMode GLenum.GL_FRONT_AND_BACK GLenum.GL_FILL,
    Event.glfwSwapBuffers (window.getD 0 0),
    Event.glfwPollEvents ]

/-- Lines 586-637: one pass through the body of the `do ... while`. -/
def loopBody (env : Env) (window : List Window) (i : Nat) : List Event × Bool :=
  let check := closeCheck (env.shouldClose i) window
  (check.1 ++ render window env.createProgram env.VAO1 env.createProgram2
    env.genVertexArrays2.1, check.2)

/-- Lines 586-637: the `do ... while (!allWindowsClosed)` loop from iteration
`i` on, followed for at most `fuel` iterations.  The second component tells
whether the loop has ended. -/
def renderLoop (env : Env) (window : List Window) : Nat → Nat → List Event × Bool
  | 0, _ => ([], false)
  | fuel + 1, i =>
    let body := loopBody env window i
    if body.2 then
      (body.1, true)
    else
      let rest := renderLoop env window fuel (i + 1)
      (body.1 ++ rest.1, rest.2)

/-- Lines 640-642: `std::for_each (..., glfwDestroyWindow)` and `glfwTerminate`. -/
def shutdown (window : List Window) : List Event :=
  window.map Event.glfwDestroyWindow ++ [Event.glfwTerminate]

/-- Lines 110-583: everything between the window loop and the render loop. -/
def setup (env : Env) : List Event :=
  bufferSetup env ++ vertexShaderSetup env ++ fragmentShaderSetup env ++ programSetup env ++
    vertexArraySetup env

/-- The procedure `main`, followed for at most `fuel` iterations of the render
loop. -/
def main (env : Env) (fuel : Nat) : Outcome :=
  if !env.glfwInit then
    ⟨[Event.glfwInit false], some ExitStatus.EXIT_FAILURE⟩
  else
    let count := 0
    let window : List Window := [env.glfwCreateWindow]
    if window.getD count 0 = 0 then
      ⟨windowSetup env count ++ [Event.glfwTerminate], some ExitStatus.EXIT_FAILURE⟩
    else
      let started := windowSetup env count ++
        [Event.glfwSetKeyCallback (window.getD count 0), Event.glfwSwapInterval 1] ++ setup env
      let loop := renderLoop env window fuel 0
      if loop.2 then
        ⟨started ++ loop.1 ++ shutdown window, some ExitStatus.EXIT_SUCCESS⟩
      else
        ⟨started ++ loop.1, none⟩

/-! ## Reading a trace -/

/-- The answer of a close-flag query, for a `glfwWindowShouldClose` call. -/
def Event.closeCheckResult : Event → Option Bool
  | Event.glfwWindowShouldClose _ r => some r
  | _ => none

/-- The answers of the close-flag queries of a trace, in order. -/
def closeChecks (t : List Event) : List Bool :=
  t.filterMap Event.closeCheckResult

/-- Calls that create an OpenGL buffer, vertex array, shader or program name. -/
def Event.createsObject : Event → Bool
  | Event.glGenBuffers _ _ => true
  | Event.glGenVertexArrays _ _ => true
  | Event.glCreateShader _ _ => true
  | Event.glCreateProgram _ => true
  | _ => false

/-- Calls that only the body of the render loop makes. -/
def Event.inRenderLoop : Event → Bool
  | Event.glfwWindowShouldClose _ _ => true
  | Event.glfwSetWindowShouldClose _ _ => true
  | Event.glClearColor _ _ _ _ => true
  | Event.glClear _ => true
  | Event.glDrawArrays _ _ _ => true
  | Event.glPolygonMode _ _ => true
  | Event.glfwSwapBuffers _ => true
  | Event.glfwPollEvents => true
  | _ => false

/-- The `glfwDestroyWindow` calls. -/
def Event.isDestroyWindow : Event → Bool
  | Event.glfwDestroyWindow _ => true
  | _ => false

/-- The `glfwPollEvents` calls; the body of the render loop ends with one. -/
def Event.isPollEvents : Event → Bool
  | Event.glfwPollEvents => true
  | _ => false

/-- The `glfwTerminate` calls. -/
def Event.isTerminate : Event → Bool
  | Event.glfwTerminate => true
  | _ => false

/-- A run used by the concrete instances below: initialization succeeds, the
driver hands out fresh names, every compile and link succeeds, the close flag
of the window is found set from the third iteration on, and the second names
of the two-name generating calls land on `VBO1` and `VAO1`. -/
def sampleEnv : Env where
  glfwInit := true
  glfwCreateWindow := 7
  genBuffers1 := 1
  genBuffers2 := (2, 3)
  createVertexShader := 1
  createFragmentShader := 2
  createFragmentShader2 := 3
  createProgram := 4
  createProgram2 := 5
  genVertexArrays1 := 1
  genVertexArrays2 := (2, 3)
  status := fun _ => 1
  infoLog := fun _ => ""
  shouldClose := fun i _ => decide (2 ≤ i)
  secondNameOnVBO1 := true
  secondNameOnVAO1 := true

/-- The status queries, the info log queries and the writes to standard
output: the calls through which a compile or link status is read and
reported. -/
def Event.isStatusReport : Event → Bool
  | Event.glGetShaderiv _ _ _ => true
  | Event.glGetProgramiv _ _ _ => true
  | Event.glGetShaderInfoLog _ _ _ => true
  | Event.glGetProgramInfoLog _ _ _ => true
  | Event.cout _ => true
  | _ => false

/-- The status queries `glGetShaderiv` and `glGetProgramiv`. -/
def Event.isStatusQuery : Event → Bool
  | Event.glGetShaderiv _ _ _ => true
  | Event.glGetProgramiv _ _ _ => true
  | _ => false

/-- The info log queries and the writes to standard output. -/
def Event.isDiagnostic : Event → Bool
  | Event.glGetShaderInfoLog _ _ _ => true
  | Event.glGetProgramInfoLog _ _ _ => true
  | Event.cout _ => true
  | _ => false

/-- The writes to standard output. -/
def Event.isCout : Event → Bool
  | Event.cout _ => true
  | _ => false

/-- A call with the answer of a status query blanked. -/
def Event.withoutStatus : Event → Event
  | Event.glGetShaderiv s p _ => Event.glGetShaderiv s p 0
  | Event.glGetProgramiv s p _ => Event.glGetProgramiv s p 0
  | e => e

/-- The five status checks in the order the claim lists them. -/
def allChecks : List Check :=
  [Check.vertexCompile, Check.fragmentCompile, Check.fragment2Compile, Check.programLink,
    Check.program2Link]

/-- The object each status check is about. -/
def Check.object (env : Env) : Check → GLuint
  | Check.vertexCompile => env.createVertexShader
  | Check.fragmentCompile => env.createFragmentShader
  | Check.fragment2Compile => env.createFragmentShader2
  | Check.programLink => env.createProgram
  | Check.program2Link => env.createProgram2

/-- The message of each status check, as the claim lists them. -/
def Check.message : Check → String
  | Check.vertexCompile => "ERROR::SHADER::VERTEX::COMPILATION_FAILED"
  | Check.fragmentCompile => "ERROR::SHADER::FRAGMENT::COMPILATION_FAILED"
  | Check.fragment2Compile => "ERROR::SHADER2::FRAGMENT2::COMPILATION_FAILED"
  | Check.programLink => "ERROR::SHADER::PROGRAM::LINKING_FAILED"
  | Check.program2Link => "ERROR::SHADER2::PROGRAM2::LINKING_FAILED"

/-- The status query of a check: compile status of a shader, link status of a
program. -/
def Check.query (env : Env) (c : Check) : Event :=
  match c with
  | Check.programLink | Check.program2Link =>
    Event.glGetProgramiv (c.object env) GLenum.GL_LINK_STATUS (env.status c)
  | _ => Event.glGetShaderiv (c.object env) GLenum.GL_COMPILE_STATUS (env.status c)

/-- The info log query of a check, on the object of the check. -/
def Check.logQuery (env : Env) (c : Check) : Event :=
  match c with
  | Check.programLink | Check.program2Link =>
    Event.glGetProgramInfoLog (c.object env) 512 (env.infoLog c)
  | _ => Event.glGetShaderInfoLog (c.object env) 512 (env.infoLog c)

/-- The report the claim asks of one status check, written from its words: the
status is queried once; if and only if it is zero the info log of the same
object is fetched and the message of the check, a line break, the info log and
the line end of `std::endl` are written to standard output. -/
def specReport (env : Env) (c : Check) : List Event :=
  if env.status c = 0 then
    [c.query env, c.logQuery env, Event.cout (c.message ++ "\n" ++ env.infoLog c ++ "\n")]
  else
    [c.query env]

/-- A run in which the vertex shader fails to compile and the second program
fails to link; the window is closed in the first iteration; the second names
of the two-name generating calls land on neither `VBO1` nor `VAO1`. -/
def failingEnv : Env where
  glfwInit := true
  glfwCreateWindow := 7
  genBuffers1 := 1
  genBuffers2 := (2, 3)
  createVertexShader := 1
  createFragmentShader := 2
  createFragmentShader2 := 3
  createProgram := 4
  createProgram2 := 5
  genVertexArrays1 := 1
  genVertexArrays2 := (2, 3)
  status := fun c => if c = Check.vertexCompile ∨ c = Check.program2Link then 0 else 1
  infoLog := fun _ => "log"
  shouldClose := fun _ _ => true
  secondNameOnVBO1 := false
  secondNameOnVAO1 := false

/-! ## The OpenGL state the calls build

The state below is the part of the OpenGL state machine the calls of `main`
write, as the OpenGL specification describes it for a driver that accepts
every call: the bindings, the polygon mode (initially `GL_FILL`), the data
store of each buffer, the attribute arrays of each vertex array, the source
and the compiled source of each shader, the shaders attached to each program,
and what each program was linked from.  Name `0` is no object: a call that
addresses it changes nothing. -/

/-- What `glVertexAttribPointer` records for one attribute of the bound vertex
array; `buffer` is the buffer bound to `GL_ARRAY_BUFFER` at the call. -/
structure AttribPointer where
  size : Nat
  type : GLenum
  normalized : Bool
  stride : Nat
  pointer : Nat
  buffer : GLuint
  deriving DecidableEq, Repr

/-- What a frame shows: the clears, the draws with the program, vertex array
and polygon mode in force at the draw, the buffer swaps and the event polls. -/
inductive Output where
  | clear (mask : GLenum)
  | draw (program vertexArray : GLuint) (polygonMode mode : GLenum) (first count : Nat)
  | swapBuffers (window : Window)
  | pollEvents
  deriving DecidableEq, Repr

/-- The OpenGL state written by the calls of `main`, and the output so far. -/
structure GLState where
  /-- The buffer bound to `GL_ARRAY_BUFFER`. -/
  arrayBuffer : GLuint
  /-- The bound vertex array. -/
  vertexArray : GLuint
  /-- The argument of the last `glUseProgram`. -/
  program : GLuint
  /-- The polygon mode of `GL_FRONT_AND_BACK`. -/
  polygonMode : GLenum
  /-- The data store of each buffer that has one. -/
  bufferData : GLuint → Option (List ℚ)
  /-- The attribute pointers of each vertex array, by attribute index. -/
  attribPointer : GLuint → Nat → Option AttribPointer
  /-- The enabled attribute arrays of each vertex array. -/
  attribEnabled : GLuint → Nat → Bool
  /-- The source set for each shader. -/
  shaderSource : GLuint → Option String
  /-- The source each shader was last compiled from. -/
  compiledSource : GLuint → Option String
  /-- The shaders attached to each program, in attachment order. -/
  attached : GLuint → List GLuint
  /-- For each program that was linked: the shaders attached at the last link,
  each with the source it had been compiled from by then. -/
  linked : GLuint → Option (List (GLuint × Option String))
  /-- What has been shown so far. -/
  output : List Output

/-- The state of a fresh context: nothing bound, polygon mode `GL_FILL`, no
objects. -/
def GLState.initial : GLState where
  arrayBuffer := 0
  vertexArray := 0
  program := 0
  polygonMode := GLenum.GL_FILL
  bufferData := fun _ => none
  attribPointer := fun _ _ => none
  attribEnabled := fun _ _ => false
  shaderSource := fun _ => none
  compiledSource := fun _ => none
  attached := fun _ => []
  linked := fun _ => none
  output := []

/-- The effect of one call on the state.  `glDeleteShader` on an attached
shader only flags it for deletion, so it changes none of these fields. -/
def glStep (s : GLState) : Event → GLState
  | Event.glBindBuffer target b =>
    if target = GLenum.GL_ARRAY_BUFFER then { s with arrayBuffer := b } else s
  | Event.glBufferData target _ data _ =>
    if target ≠ GLenum.GL_ARRAY_BUFFER ∨ s.arrayBuffer = 0 then s
    else { s with bufferData := fun b => if b = s.arrayBuffer then some data else s.bufferData b }
  | Event.glBindVertexArray a => { s with vertexArray := a }
  | Event.glVertexAttribPointer index size type normalized stride pointer =>
    if s.vertexArray = 0 then s
    else { s with attribPointer := fun a i =>
            if a = s.vertexArray ∧ i = index then
              some ⟨size, type, normalized, stride, pointer, s.arrayBuffer⟩
            else s.attribPointer a i }
  | Event.glEnableVertexAttribArray index =>
    if s.vertexArray = 0 then s
    else { s with attribEnabled := fun a i =>
            if a = s.vertexArray ∧ i = index then true else s.attribEnabled a i }
  | Event.glShaderSource shader _ source =>
    if shader = 0 then s
    else { s with shaderSource := fun x => if x = shader then some source else s.shaderSource x }
  | Event.glCompileShader shader =>
    if shader = 0 then s
    else { s with compiledSource := fun x =>
            if x = shader then s.shaderSource shader else s.compiledSource x }
  | Event.glAttachShader program shader =>
    if program = 0 ∨ shader = 0 ∨ shader ∈ s.attached program then s
    else { s with attached := fun x =>
            if x = program then s.attached program ++ [shader] else s.attached x }
  | Event.glLinkProgram program =>
    if program = 0 then s
    else { s with linked := fun x =>
            if x = program then
              some ((s.attached program).map (fun sh => (sh, s.compiledSource sh)))
            else s.linked x }
  | Event.glUseProgram program => { s with program := program }
  | Event.glPolygonMode face mode =>
    if face = GLenum.GL_FRONT_AND_BACK ∧ (mode = GLenum.GL_LINE ∨ mode = GLenum.GL_FILL) then
      { s with polygonMode := mode }
    else s
  | Event.glClear mask => { s with output := s.output ++ [Output.clear mask] }
  | Event.glDrawArrays mode first count =>
    { s with output := s.output ++
        [Output.draw s.program s.vertexArray s.polygonMode mode first count] }
  | Event.glfwSwapBuffers window => { s with output := s.output ++ [Output.swapBuffers window] }
  | Event.glfwPollEvents => { s with output := s.output ++ [Output.pollEvents] }
  | _ => s

/-- The state after a sequence of calls. -/
def glRun (s : GLState) (t : List Event) : GLState :=
  t.foldl glStep s

/-- What one frame shows, written from the claim: clear the colour buffer,
draw 3 vertices with `shaderProgram` and `VAO1` filled, draw 3 vertices with
`shaderProgram2` and `VAO2` as lines, swap the buffers of `window[0]`, poll
events.  `VAO1` is the value the program reads from that variable
(`Env.VAO1`), in either memory layout. -/
def specFrame (env : Env) : List Output :=
  [ Output.clear GLenum.GL_COLOR_BUFFER_BIT,
    Output.draw env.createProgram env.VAO1 GLenum.GL_FILL GLenum.GL_TRIANGLES 0 3,
    Output.draw env.createProgram2 env.genVertexArrays2.1 GLenum.GL_LINE GLenum.GL_TRIANGLES 0 3,
    Output.swapBuffers env.glfwCreateWindow,
    Output.pollEvents ]

/-- The calls that write the shader and program objects of the state. -/
def Event.isShaderCall : Event → Bool
  | Event.glShaderSource _ _ _ => true
  | Event.glCompileShader _ => true
  | Event.glAttachShader _ _ => true
  | Event.glLinkProgram _ => true
  | _ => false

/-- Lines 219-414 of `main`: the shader and program part of `setup`. -/
def shaderSetup (env : Env) : List Event :=
  vertexShaderSetup env ++ fragmentShaderSetup env ++ programSetup env

/-- The calls that write an object of the state: a buffer data store, a vertex
array attribute, a shader or a program. -/
def Event.writesObject : Event → Bool
  | Event.glBufferData _ _ _ _ => true
  | Event.glVertexAttribPointer _ _ _ _ _ _ => true
  | Event.glEnableVertexAttribArray _ => true
  | Event.glShaderSource _ _ _ => true
  | Event.glCompileShader _ => true
  | Event.glAttachShader _ _ => true
  | Event.glLinkProgram _ => true
  | _ => false

/-- The calls of `shaderSetup` other than status queries, info log queries and
writes to standard output. -/
def shaderCalls (env : Env) : List Event :=
  [ Event.glCreateShader GLenum.GL_VERTEX_SHADER env.createVertexShader,
    Event.glShaderSource env.createVertexShader 1 vertexShaderSource,
    Event.glCompileShader env.createVertexShader,
    Event.glCreateShader GLenum.GL_FRAGMENT_SHADER env.createFragmentShader,
    Event.glCreateShader GLenum.GL_FRAGMENT_SHADER env.createFragmentShader2,
    Event.glShaderSource env.createFragmentShader 1 fragSource,
    Event.glCompileShader env.createFragmentShader,
    Event.glShaderSource env.createFragmentShader2 1 fragSource2,
    Event.glCompileShader env.createFragmentShader2,
    Event.glCreateProgram env.createProgram,
    Event.glCreateProgram env.createProgram2,
    Event.glAttachShader env.createProgram env.createVertexShader,
    Event.glAttachShader env.createProgram env.createFragmentShader,
    Event.glAttachShader env.createProgram2 env.createVertexShader,
    Event.glAttachShader env.createProgram2 env.createFragmentShader2,
    Event.glLinkProgram env.createProgram,
    Event.glLinkProgram env.createProgram2,
    Event.glDeleteShader env.createVertexShader,
    Event.glDeleteShader env.createFragmentShader,
    Event.glDeleteShader env.createFragmentShader2,
    Event.glUseProgram env.createProgram,
    Event.glUseProgram env.createProgram2 ]

/-- The shader a `glCreateShader` call answers, with its type. -/
def Event.createdShader : Event → Option (GLenum × GLuint)
  | Event.glCreateShader type result => some (type, result)
  | _ => none

/-- The program a `glCreateProgram` call answers. -/
def Event.createdProgram : Event → Option GLuint
  | Event.glCreateProgram result => some result
  | _ => none

/-- The program a `glLinkProgram` call links. -/
def Event.linkedProgram : Event → Option GLuint
  | Event.glLinkProgram program => some program
  | _ => none

/-- The three shader names are nonzero and pairwise distinct, and so are the
two program names: what `Env.ShadersCreated`, `Env.DistinctShaders` and
`Env.DistinctPrograms` give together. -/
def Env.FreshShaderNames (env : Env) : Prop :=
  env.createVertexShader ≠ 0 ∧ env.createFragmentShader ≠ 0 ∧ env.createFragmentShader2 ≠ 0 ∧
  env.createVertexShader ≠ env.createFragmentShader ∧
  env.createVertexShader ≠ env.createFragmentShader2 ∧
  env.createFragmentShader ≠ env.createFragmentShader2 ∧
  env.createProgram ≠ 0 ∧ env.createProgram2 ≠ 0 ∧ env.createProgram ≠ env.createProgram2

/-- The kinds of call the body of the render loop makes. -/
def Event.inLoopBody : Event → Bool
  | Event.glfwWindowShouldClose _ _ => true
  | Event.glfwSetWindowShouldClose _ _ => true
  | Event.glClearColor _ _ _ _ => true
  | Event.glClear _ => true
  | Event.glUseProgram _ => true
  | Event.glBindVertexArray _ => true
  | Event.glDrawArrays _ _ _ => true
  | Event.glPolygonMode _ _ => true
  | Event.glfwSwapBuffers _ => true
  | Event.glfwPollEvents => true
  | _ => false

/-! ## Resource handles -/

/-- The kinds of resource handle of the program. -/
inductive Kind where
  | window
  | buffer
  | vertexArray
  | shader
  | program
  deriving DecidableEq, Repr

/-- A resource handle: its kind and its value.  The null pointer and the name
`0` are no handle. -/
abbrev Handle := Kind × Nat

/-- The handles among the given values of a kind. -/
def handles (k : Kind) (values : List Nat) : List Handle :=
  (values.filter (fun v => v ≠ 0)).map (fun v => (k, v))

/-- The handles a call creates: the window `glfwCreateWindow` answers, the
names `glGenBuffers` and `glGenVertexArrays` store, the shader or program
`glCreateShader` or `glCreateProgram` answers. -/
def Event.creates : Event → List Handle
  | Event.glfwCreateWindow _ _ _ result => handles Kind.window [result]
  | Event.glGenBuffers _ names => handles Kind.buffer names
  | Event.glGenVertexArrays _ names => handles Kind.vertexArray names
  | Event.glCreateShader _ result => handles Kind.shader [result]
  | Event.glCreateProgram result => handles Kind.program [result]
  | _ => []

/-- The handles a call takes as arguments. -/
def Event.uses : Event → List Handle
  | Event.glfwMakeContextCurrent window => handles Kind.window [window]
  | Event.glfwSetKeyCallback window => handles Kind.window [window]
  | Event.glBindBuffer _ buffer => handles Kind.buffer [buffer]
  | Event.glShaderSource shader _ _ => handles Kind.shader [shader]
  | Event.glCompileShader shader => handles Kind.shader [shader]
  | Event.glGetShaderiv shader _ _ => handles Kind.shader [shader]
  | Event.glGetShaderInfoLog shader _ _ => handles Kind.shader [shader]
  | Event.glAttachShader program shader =>
    handles Kind.program [program] ++ handles Kind.shader [shader]
  | Event.glLinkProgram program => handles Kind.program [program]
  | Event.glGetProgramiv program _ _ => handles Kind.program [program]
  | Event.glGetProgramInfoLog program _ _ => handles Kind.program [program]
  | Event.glDeleteShader shader => handles Kind.shader [shader]
  | Event.glUseProgram program => handles Kind.program [program]
  | Event.glBindVertexArray array => handles Kind.vertexArray [array]
  | Event.glfwWindowShouldClose window _ => handles Kind.window [window]
  | Event.glfwSetWindowShouldClose window _ => handles Kind.window [window]
  | Event.glfwSwapBuffers window => handles Kind.window [window]
  | Event.glfwDestroyWindow window => handles Kind.window [window]
  | _ => []

/-- The handles a call deletes or destroys. -/
def Event.deletes : Event → List Handle
  | Event.glDeleteShader shader => handles Kind.shader [shader]
  | Event.glfwDestroyWindow window => handles Kind.window [window]
  | _ => []

/-- Every call of the trace takes only handles that are among `created` or
were created by an earlier call of the trace, and none that is among `deleted`
or was deleted by an earlier call of the trace. -/
def handlesOk (created deleted : List Handle) : List Event → Prop
  | [] => True
  | e :: t =>
    (∀ h ∈ e.uses, h ∈ created ∧ h ∉ deleted) ∧
    handlesOk (created ++ e.creates) (deleted ++ e.deletes) t

/-- The driver never hands out one shader name twice while both are alive:
two of the three shader names are equal only if they are `0`, the answer of a
failed `glCreateShader`. -/
def Env.DistinctShaders (env : Env) : Prop :=
  (env.createVertexShader = env.createFragmentShader → env.createVertexShader = 0) ∧
  (env.createVertexShader = env.createFragmentShader2 → env.createVertexShader = 0) ∧
  (env.createFragmentShader = env.createFragmentShader2 → env.createFragmentShader = 0)

/-! ## The claims about the static data and the generating calls -/

/-- The triangle `vertices2` is written from: bottom right, bottom left, top
left, before `gap` is subtracted. -/
def triangle2 : List ℚ :=
  [ 0.5, -0.5, 0.0,
   -0.5, -0.5, 0.0,
   -0.5,  0.5, 0.0]

/-- The number of `unsigned int`s at the destination of every generating call
of `main`: each of `&VBO1`, `&VBO2`, `&VAO1`, `&VAO2` is the address of one
`unsigned int` variable (main.cpp 110, 475). -/
def destinationCapacity : Nat := 1

/-- The requested count and the names stored, for a `glGenBuffers` call. -/
def Event.genBuffersRequest : Event → Option (Nat × List GLuint)
  | Event.glGenBuffers n names => some (n, names)
  | _ => none

/-- The requested count and the names stored, for a `glGenVertexArrays` call. -/
def Event.genVertexArraysRequest : Event → Option (Nat × List GLuint)
  | Event.glGenVertexArrays n names => some (n, names)
  | _ => none

/-! ## Close flags along a trace -/

/-- A close-flag query answers the flag of its window; other calls answer
nothing. -/
def Event.answersFlag (flags : CloseFlags) : Event → Prop
  | Event.glfwWindowShouldClose w r => r = flags w
  | _ => True

/-- Every close-flag query of the trace answers the flag as the earlier calls
of the trace left it, starting from `flags`. -/
def answersAgree (flags : CloseFlags) : List Event → Prop
  | [] => True
  | e :: t => e.answersFlag flags ∧ answersAgree (closeFlagsStep flags e) t

/-- The calls of the lambda of lines 590-604 on one window, given the answer
of `glfwWindowShouldClose`. -/
def windowCheckCalls (shouldClose : Window → Bool) (theWindow : Window) : List Event :=
  (windowCheck shouldClose ([], true) theWindow).1

/-! ## Success of the creating calls -/

/-- Every `glCreateShader` and `glCreateProgram` call of the run succeeds: none
answers `0`. -/
def Env.ShadersCreated (env : Env) : Prop :=
  env.createVertexShader ≠ 0 ∧ env.createFragmentShader ≠ 0 ∧ env.createFragmentShader2 ≠ 0 ∧
  env.createProgram ≠ 0 ∧ env.createProgram2 ≠ 0

/-- The driver never hands out one program name twice while both are alive:
the two program names are equal only if they are `0`, the answer of a failed
`glCreateProgram`. -/
def Env.DistinctPrograms (env : Env) : Prop :=
  env.createProgram = env.createProgram2 → env.createProgram = 0

/-- A run in which both `glCreateShader (GL_FRAGMENT_SHADER)` calls fail and
answer `0`; everything else is as in `sampleEnv`. -/
def createFailEnv : Env where
  glfwInit := true
  glfwCreateWindow := 7
  genBuffers1 := 1
  genBuffers2 := (2, 3)
  createVertexShader := 1
  createFragmentShader := 0
  createFragmentShader2 := 0
  createProgram := 4
  createProgram2 := 5
  genVertexArrays1 := 1
  genVertexArrays2 := (2, 3)
  status := fun _ => 1
  infoLog := fun _ => ""
  shouldClose := fun i _ => decide (2 ≤ i)
  secondNameOnVBO1 := true
  secondNameOnVAO1 := true

end Untitled1

/-! ## Theorems -/

namespace Untitled1

/-- C1: `KeyCallback` makes the one call `glfwSetWindowShouldClose (window,
GLFW_TRUE)`, which sets the close flag of that window and of no other, exactly
when `key` is `GLFW_KEY_ESCAPE` and `action` is `GLFW_PRESS`; otherwise it
makes no call and the close flags are unchanged; `scancode` and `mods` do not
influence the calls made. -/
theorem keyCallback_closes_on_escape_press (window : Window) (key scancode action mods : Int)
    (flags : CloseFlags) :
    ((key = GLFW_KEY_ESCAPE ∧ action = GLFW_PRESS) →
        KeyCallback window key scancode action mods
          = [Event.glfwSetWindowShouldClose window GLFW_TRUE] ∧
        closeFlagsAfter flags (KeyCallback window key scancode action mods) window = true ∧
        ∀ other, other ≠ window →
          closeFlagsAfter flags (KeyCallback window key scancode action mods) other
            = flags other) ∧
    (¬ (key = GLFW_KEY_ESCAPE ∧ action = GLFW_PRESS) →
        KeyCallback window key scancode action mods = [] ∧
        closeFlagsAfter flags (KeyCallback window key scancode action mods) = flags) ∧
    (∀ scancode2 mods2 : Int,
        KeyCallback window key scancode2 action mods2
          = KeyCallback window key scancode action mods) := by
  refine ⟨?_, ?_, ?_⟩
  · intro h
    refine ⟨by simp [KeyCallback, h], by simp [KeyCallback, h, closeFlagsAfter, closeFlagsStep,
      GLFW_TRUE], ?_⟩
    intro other hne
    simp [KeyCallback, h, closeFlagsAfter, closeFlagsStep, hne]
  · intro h
    constructor
    · simp only [KeyCallback, if_neg h]
    · simp only [KeyCallback, if_neg h, closeFlagsAfter, List.foldl_nil]
  · intro scancode2 mods2
    rfl

/-- C1 at concrete inputs: an escape press on window 7 requests its close and
a release of the escape key does nothing. -/
theorem keyCallback_closes_on_escape_press_witness :
    (KeyCallback 7 GLFW_KEY_ESCAPE 9 GLFW_PRESS 0
        = [Event.glfwSetWindowShouldClose 7 GLFW_TRUE] ∧
      closeFlagsAfter (fun _ => false) (KeyCallback 7 GLFW_KEY_ESCAPE 9 GLFW_PRESS 0) 7
        = true) ∧
    KeyCallback 7 GLFW_KEY_ESCAPE 9 0 0 = [] :=
  ⟨⟨((keyCallback_closes_on_escape_press 7 GLFW_KEY_ESCAPE 9 GLFW_PRESS 0
        (fun _ => false)).1 ⟨rfl, rfl⟩).1,
    ((keyCallback_closes_on_escape_press 7 GLFW_KEY_ESCAPE 9 GLFW_PRESS 0
        (fun _ => false)).1 ⟨rfl, rfl⟩).2.1⟩,
   ((keyCallback_closes_on_escape_press 7 GLFW_KEY_ESCAPE 9 0 0
        (fun _ => false)).2.1 (by decide)).1⟩

/-- C4: when `glfwInit` fails the only call made is `glfwInit` and the
process exits with `EXIT_FAILURE`; when `glfwInit` succeeds and
`glfwCreateWindow` answers null the calls are those of lines 35-55 followed by
`glfwTerminate`, the process exits with `EXIT_FAILURE`, and no call creates a
buffer, vertex array, shader or program or belongs to the render loop. -/
theorem init_failure_exits_with_failure (env : Env) (fuel : Nat) :
    (env.glfwInit = false →
        main env fuel = ⟨[Event.glfwInit false], some ExitStatus.EXIT_FAILURE⟩) ∧
    (env.glfwInit = true → env.glfwCreateWindow = 0 →
        (main env fuel).exit = some ExitStatus.EXIT_FAILURE ∧
        (main env fuel).trace =
          [ Event.glfwInit true,
            Event.glfwWindowHint GLFWhint.GLFW_CONTEXT_VERSION_MAJOR 3,
            Event.glfwWindowHint GLFWhint.GLFW_CONTEXT_VERSION_MINOR 3,
            Event.glfwWindowHint GLFWhint.GLFW_OPENGL_PROFILE GLFW_OPENGL_CORE_PROFILE,
            Event.glfwWindowHint GLFWhint.GLFW_OPENGL_DEBUG_CONTEXT GLFW_TRUE,
            Event.glfwCreateWindow 640 480 "glfw window" 0,
            Event.glfwSetErrorCallback,
            Event.glfwMakeContextCurrent 0,
            Event.gladLoadGLLoader,
            Event.glfwTerminate ] ∧
        ∀ e ∈ (main env fuel).trace, e.createsObject = false ∧ e.inRenderLoop = false) := by
  constructor
  · intro h
    simp [main, h]
  · intro h hw
    have ht : "glfw window".drop 0 = "glfw window" := by decide
    simp [main, h, hw, windowSetup, ht, Event.createsObject, Event.inRenderLoop]

/-- C4 at concrete runs: `glfwInit` fails; `glfwCreateWindow` answers null. -/
theorem init_failure_exits_with_failure_witness :
    main { sampleEnv with glfwInit := false } 3
      = ⟨[Event.glfwInit false], some ExitStatus.EXIT_FAILURE⟩ ∧
    (main { sampleEnv with glfwCreateWindow := 0 } 3).exit = some ExitStatus.EXIT_FAILURE :=
  ⟨(init_failure_exits_with_failure { sampleEnv with glfwInit := false } 3).1 rfl,
   ((init_failure_exits_with_failure { sampleEnv with glfwCreateWindow := 0 } 3).2 rfl rfl).1⟩

/-! ### The render loop on the one window of `main` -/

theorem closeCheck_single (sc : Window → Bool) (w : Window) (hw : w ≠ 0) :
    closeCheck sc [w] =
      if sc w then
        ([Event.glfwWindowShouldClose w true, Event.glfwSetWindowShouldClose w GLFW_TRUE], true)
      else ([Event.glfwWindowShouldClose w false], false) := by
  simp [closeCheck, windowCheck, hw]

theorem loopBody_clear (env : Env) (w : Window) (i : Nat) (hw : w ≠ 0)
    (h : env.shouldClose i w = false) :
    loopBody env [w] i =
      (Event.glfwWindowShouldClose w false ::
        render [w] env.createProgram env.VAO1 env.createProgram2
          env.genVertexArrays2.1, false) := by
  simp [loopBody, closeCheck_single _ w hw, h]

theorem loopBody_set (env : Env) (w : Window) (i : Nat) (hw : w ≠ 0)
    (h : env.shouldClose i w = true) :
    loopBody env [w] i =
      (Event.glfwWindowShouldClose w true :: Event.glfwSetWindowShouldClose w GLFW_TRUE ::
        render [w] env.createProgram env.VAO1 env.createProgram2
          env.genVertexArrays2.1, true) := by
  simp [loopBody, closeCheck_single _ w hw, h]

theorem closeChecks_append (a b : List Event) :
    closeChecks (a ++ b) = closeChecks a ++ closeChecks b := by
  simp [closeChecks]

theorem closeChecks_render (window : List Window) (p1 a1 p2 a2 : GLuint) :
    closeChecks (render window p1 a1 p2 a2) = [] := rfl

theorem polls_render (window : List Window) (p1 a1 p2 a2 : GLuint) :
    (render window p1 a1 p2 a2).countP Event.isPollEvents = 1 := rfl

/-- While the close flag is found clear the loop goes on: after `fuel`
iterations it has not ended, made `fuel` checks and polled `fuel` times. -/
theorem renderLoop_while_clear (env : Env) (w : Window) (hw : w ≠ 0) :
    ∀ fuel i, (∀ j, j < fuel → env.shouldClose (i + j) w = false) →
      (renderLoop env [w] fuel i).2 = false ∧
      closeChecks (renderLoop env [w] fuel i).1 = List.replicate fuel false ∧
      (renderLoop env [w] fuel i).1.countP Event.isPollEvents = fuel := by
  intro fuel
  induction fuel with
  | zero => intro i _; simp [renderLoop, closeChecks]
  | succ fuel ih =>
    intro i h
    have h0 : env.shouldClose i w = false := by simpa using h 0 (Nat.succ_pos _)
    have hrest : ∀ j, j < fuel → env.shouldClose (i + 1 + j) w = false := by
      intro j hj
      have := h (j + 1) (Nat.succ_lt_succ hj)
      rwa [show i + (j + 1) = i + 1 + j by omega] at this
    obtain ⟨e1, e2, e3⟩ := ih (i + 1) hrest
    simp only [renderLoop, loopBody_clear env w i hw h0]
    refine ⟨by simpa using e1, ?_, ?_⟩
    · simp only [Bool.false_eq_true, if_false, List.cons_append]
      rw [show ∀ l, closeChecks (Event.glfwWindowShouldClose w false :: l)
        = false :: closeChecks l from fun l => rfl, closeChecks_append, closeChecks_render, e2]
      simp [List.replicate_succ]
    · simp only [Bool.false_eq_true, if_false, List.cons_append, List.countP_cons,
        List.countP_append, polls_render, e3, Event.isPollEvents]
      simp
      omega

/-- The loop ends with the first iteration whose check finds the flag set: if
that is iteration `i + k` and the fuel exceeds `k`, the loop has ended after
`k + 1` checks and `k + 1` polls. -/
theorem renderLoop_until_set (env : Env) (w : Window) (hw : w ≠ 0) :
    ∀ k fuel i, (∀ j, j < k → env.shouldClose (i + j) w = false) →
      env.shouldClose (i + k) w = true → k < fuel →
      (renderLoop env [w] fuel i).2 = true ∧
      closeChecks (renderLoop env [w] fuel i).1 = List.replicate k false ++ [true] ∧
      (renderLoop env [w] fuel i).1.countP Event.isPollEvents = k + 1 := by
  intro k
  induction k with
  | zero =>
    intro fuel i _ hset hk
    obtain ⟨f, rfl⟩ : ∃ f, fuel = f + 1 := ⟨fuel - 1, by omega⟩
    have hset0 : env.shouldClose i w = true := by simpa using hset
    simp only [renderLoop, loopBody_set env w i hw hset0, if_true]
    exact ⟨trivial, rfl, rfl⟩
  | succ k ih =>
    intro fuel i h hset hk
    obtain ⟨f, rfl⟩ : ∃ f, fuel = f + 1 := ⟨fuel - 1, by omega⟩
    have h0 : env.shouldClose i w = false := by simpa using h 0 (Nat.succ_pos _)
    have hrest : ∀ j, j < k → env.shouldClose (i + 1 + j) w = false := by
      intro j hj
      have := h (j + 1) (Nat.succ_lt_succ hj)
      rwa [show i + (j + 1) = i + 1 + j by omega] at this
    have hset1 : env.shouldClose (i + 1 + k) w = true := by
      rwa [show i + (k + 1) = i + 1 + k by omega] at hset
    obtain ⟨e1, e2, e3⟩ := ih f (i + 1) hrest hset1 (by omega)
    simp only [renderLoop, loopBody_clear env w i hw h0]
    refine ⟨by simpa using e1, ?_, ?_⟩
    · simp only [Bool.false_eq_true, if_false, List.cons_append]
      rw [show ∀ l, closeChecks (Event.glfwWindowShouldClose w false :: l)
        = false :: closeChecks l from fun l => rfl, closeChecks_append, closeChecks_render, e2]
      simp [List.replicate_succ]
    · simp only [Bool.false_eq_true, if_false, List.cons_append, List.countP_cons,
        List.countP_append, polls_render, e3, Event.isPollEvents]
      simp
      omega

/-- A property of every call of every loop body holds for every call of the
loop. -/
theorem renderLoop_forall (env : Env) (window : List Window) (P : Event → Prop)
    (h : ∀ i, ∀ e ∈ (loopBody env window i).1, P e) :
    ∀ fuel i, ∀ e ∈ (renderLoop env window fuel i).1, P e := by
  intro fuel
  induction fuel with
  | zero => intro i e he; simp [renderLoop] at he
  | succ fuel ih =>
    intro i e he
    simp only [renderLoop] at he
    split at he
    · exact h i e he
    · rcases List.mem_append.1 he with h1 | h1
      · exact h i e h1
      · exact ih (i + 1) e h1

/-- The calls of one loop body on the one window of `main`. -/
theorem mem_loopBody_single (env : Env) (w : Window) (i : Nat) (hw : w ≠ 0) (e : Event)
    (he : e ∈ (loopBody env [w] i).1) :
    e = Event.glfwWindowShouldClose w (env.shouldClose i w) ∨
    e = Event.glfwSetWindowShouldClose w GLFW_TRUE ∨
    e ∈ render [w] env.createProgram env.VAO1 env.createProgram2
      env.genVertexArrays2.1 := by
  cases h : env.shouldClose i w
  · rw [loopBody_clear env w i hw h] at he
    simp only [List.mem_cons] at he
    rcases he with h1 | h1
    · exact Or.inl h1
    · exact Or.inr (Or.inr h1)
  · rw [loopBody_set env w i hw h] at he
    simp only [List.mem_cons] at he
    rcases he with h1 | h1 | h1
    · exact Or.inl h1
    · exact Or.inr (Or.inl h1)
    · exact Or.inr (Or.inr h1)

/-! ### The parts of `main` before the loop make no loop call -/

theorem closeChecks_setup (env : Env) : closeChecks (setup env) = [] := by
  simp only [setup, bufferSetup, vertexShaderSetup, fragmentShaderSetup, programSetup,
    vertexArraySetup]
  split_ifs <;> rfl

theorem polls_setup (env : Env) : (setup env).countP Event.isPollEvents = 0 := by
  simp only [setup, bufferSetup, vertexShaderSetup, fragmentShaderSetup, programSetup,
    vertexArraySetup]
  split_ifs <;> rfl

theorem main_running (env : Env) (fuel : Nat) (hinit : env.glfwInit = true)
    (hwin : env.glfwCreateWindow ≠ 0) :
    main env fuel =
      if (renderLoop env [env.glfwCreateWindow] fuel 0).2 then
        ⟨windowSetup env 0 ++
          [Event.glfwSetKeyCallback env.glfwCreateWindow, Event.glfwSwapInterval 1] ++
          setup env ++ (renderLoop env [env.glfwCreateWindow] fuel 0).1 ++
          shutdown [env.glfwCreateWindow], some ExitStatus.EXIT_SUCCESS⟩
      else
        ⟨windowSetup env 0 ++
          [Event.glfwSetKeyCallback env.glfwCreateWindow, Event.glfwSwapInterval 1] ++
          setup env ++ (renderLoop env [env.glfwCreateWindow] fuel 0).1, none⟩ := by
  simp [main, hinit, hwin]

/-- C3: with initialization done, if the close flag is first found set by the
check of iteration `n` (counted from 0), then followed for at most `n`
iterations the program is still in the loop, having found the flag clear each
time, and followed for more it has left the loop and exited after exactly
`n + 1` checks (all clear but the last) and `n + 1` completed iterations; if
the flag is never found set the loop has not ended after any number of
iterations. -/
theorem renderLoop_repeats_until_close (env : Env) (hinit : env.glfwInit = true)
    (hwin : env.glfwCreateWindow ≠ 0) :
    (∀ n, (∀ i, i < n → env.shouldClose i env.glfwCreateWindow = false) →
        env.shouldClose n env.glfwCreateWindow = true →
        ∀ fuel,
          (fuel ≤ n →
            (main env fuel).exit = none ∧
            closeChecks (main env fuel).trace = List.replicate fuel false ∧
            (main env fuel).trace.countP Event.isPollEvents = fuel) ∧
          (n < fuel →
            (main env fuel).exit = some ExitStatus.EXIT_SUCCESS ∧
            closeChecks (main env fuel).trace = List.replicate n false ++ [true] ∧
            (main env fuel).trace.countP Event.isPollEvents = n + 1)) ∧
    ((∀ i, env.shouldClose i env.glfwCreateWindow = false) →
        ∀ fuel,
          (main env fuel).exit = none ∧
          closeChecks (main env fuel).trace = List.replicate fuel false ∧
          (main env fuel).trace.countP Event.isPollEvents = fuel) := by
  have hpre : closeChecks (windowSetup env 0 ++
      [Event.glfwSetKeyCallback env.glfwCreateWindow, Event.glfwSwapInterval 1]) = [] := rfl
  have hpre2 : (windowSetup env 0 ++
      [Event.glfwSetKeyCallback env.glfwCreateWindow, Event.glfwSwapInterval 1]).countP
        Event.isPollEvents = 0 := rfl
  have hshut : closeChecks (shutdown [env.glfwCreateWindow]) = [] := rfl
  have hshut2 : (shutdown [env.glfwCreateWindow]).countP Event.isPollEvents = 0 := rfl
  have clear : ∀ fuel, (∀ j, j < fuel → env.shouldClose j env.glfwCreateWindow = false) →
      (main env fuel).exit = none ∧
      closeChecks (main env fuel).trace = List.replicate fuel false ∧
      (main env fuel).trace.countP Event.isPollEvents = fuel := by
    intro fuel h
    obtain ⟨e1, e2, e3⟩ := renderLoop_while_clear env _ hwin fuel 0 (by simpa using h)
    rw [main_running env fuel hinit hwin, e1]
    simp only [Bool.false_eq_true, if_false, closeChecks_append, List.countP_append, hpre, hpre2,
      closeChecks_setup, polls_setup, e2, e3]
    simp
  refine ⟨?_, fun h fuel => clear fuel (fun j _ => h j)⟩
  intro n hclear hset fuel
  refine ⟨fun hle => clear fuel (fun j hj => hclear j (by omega)), ?_⟩
  intro hlt
  obtain ⟨e1, e2, e3⟩ := renderLoop_until_set env _ hwin n fuel 0 (by simpa using hclear)
    (by simpa using hset) hlt
  rw [main_running env fuel hinit hwin, e1]
  simp only [if_true, closeChecks_append, List.countP_append, hpre, hpre2,
    closeChecks_setup, polls_setup, e2, e3, hshut, hshut2]
  simp

/-- C3 at a concrete run: the flag is first found set in the third iteration,
so the run exits after the checks clear, clear, set. -/
theorem renderLoop_repeats_until_close_witness :
    ((main sampleEnv 2).exit = none ∧
      closeChecks (main sampleEnv 2).trace = List.replicate 2 false ∧
      (main sampleEnv 2).trace.countP Event.isPollEvents = 2) ∧
    ((main sampleEnv 5).exit = some ExitStatus.EXIT_SUCCESS ∧
      closeChecks (main sampleEnv 5).trace = List.replicate 2 false ++ [true] ∧
      (main sampleEnv 5).trace.countP Event.isPollEvents = 2 + 1) :=
  ⟨((renderLoop_repeats_until_close sampleEnv rfl (by decide)).1 2 (by decide) (by decide) 2).1
      (by decide),
   ((renderLoop_repeats_until_close sampleEnv rfl (by decide)).1 2 (by decide) (by decide) 5).2
      (by decide)⟩

/-! ### Exit -/

theorem not_destroy_or_terminate_render (window : List Window) (p1 a1 p2 a2 : GLuint) :
    ∀ e ∈ render window p1 a1 p2 a2, e.isDestroyWindow = false ∧ e.isTerminate = false := by
  intro e he
  simp only [render, List.mem_cons, List.mem_singleton, List.not_mem_nil, or_false] at he
  rcases he with h | h | h | h | h | h | h | h | h | h | h | h <;> subst h <;> exact ⟨rfl, rfl⟩

theorem not_destroy_or_terminate_setup (env : Env) :
    ∀ e ∈ setup env, e.isDestroyWindow = false ∧ e.isTerminate = false := by
  have h : (setup env).all (fun e => !e.isDestroyWindow && !e.isTerminate) = true := by
    simp only [setup, bufferSetup, vertexShaderSetup, fragmentShaderSetup, programSetup,
      vertexArraySetup]
    split_ifs <;> rfl
  intro e he
  have := List.all_eq_true.1 h e he
  simpa using this

theorem not_destroy_or_terminate_loop (env : Env) (w : Window) (hw : w ≠ 0) (fuel i : Nat) :
    ∀ e ∈ (renderLoop env [w] fuel i).1, e.isDestroyWindow = false ∧ e.isTerminate = false := by
  apply renderLoop_forall
  intro j e he
  rcases mem_loopBody_single env w j hw e he with h | h | h
  · subst h; exact ⟨rfl, rfl⟩
  · subst h; exact ⟨rfl, rfl⟩
  · exact not_destroy_or_terminate_render _ _ _ _ _ e h

/-- C5: in a run whose initialization succeeded and whose render loop has
ended, the process exits with `EXIT_SUCCESS` and its last two calls are
`glfwDestroyWindow` on the one window of the list and `glfwTerminate`, neither
of which was called before; and a run exits with `EXIT_FAILURE` only if
`glfwInit` or `glfwCreateWindow` failed. -/
theorem exits_cleanly_after_loop (env : Env) (fuel : Nat) :
    (env.glfwInit = true → env.glfwCreateWindow ≠ 0 → (main env fuel).exit ≠ none →
        (main env fuel).exit = some ExitStatus.EXIT_SUCCESS ∧
        ∃ before,
          (main env fuel).trace =
            before ++ [Event.glfwDestroyWindow env.glfwCreateWindow, Event.glfwTerminate] ∧
          ∀ e ∈ before, e.isDestroyWindow = false ∧ e.isTerminate = false) ∧
    ((main env fuel).exit = some ExitStatus.EXIT_FAILURE →
        env.glfwInit = false ∨ env.glfwCreateWindow = 0) := by
  constructor
  · intro hinit hwin hexit
    rw [main_running env fuel hinit hwin] at hexit ⊢
    cases hl : (renderLoop env [env.glfwCreateWindow] fuel 0).2
    · simp [hl] at hexit
    · simp only [if_true, true_and]
      refine ⟨_, rfl, ?_⟩
      intro e he
      rcases List.mem_append.1 he with h1 | h1
      · rcases List.mem_append.1 h1 with h2 | h2
        · rcases List.mem_append.1 h2 with h3 | h3
          · simp only [windowSetup, List.mem_cons, List.mem_singleton, List.not_mem_nil,
              or_false] at h3
            rcases h3 with h | h | h | h | h | h | h | h | h <;> subst h <;> exact ⟨rfl, rfl⟩
          · simp only [List.mem_cons, List.mem_singleton, List.not_mem_nil, or_false] at h3
            rcases h3 with h | h <;> subst h <;> exact ⟨rfl, rfl⟩
        · exact not_destroy_or_terminate_setup env e h2
      · exact not_destroy_or_terminate_loop env _ hwin fuel 0 e h1
  · intro hfail
    by_contra hcon
    simp only [not_or, Bool.not_eq_false] at hcon
    rw [main_running env fuel hcon.1 hcon.2] at hfail
    split at hfail <;> simp at hfail

/-- C5 at a concrete run: the window is closed in the third iteration and the
run exits with `EXIT_SUCCESS` after destroying window 7 and terminating. -/
theorem exits_cleanly_after_loop_witness :
    (main sampleEnv 3).exit = some ExitStatus.EXIT_SUCCESS ∧
    ∃ before,
      (main sampleEnv 3).trace =
        before ++ [Event.glfwDestroyWindow sampleEnv.glfwCreateWindow, Event.glfwTerminate] ∧
      ∀ e ∈ before, e.isDestroyWindow = false ∧ e.isTerminate = false :=
  (exits_cleanly_after_loop sampleEnv 3).1 rfl (by decide) (by decide)

/-! ### Status checks -/

theorem statusReport_render (window : List Window) (p1 a1 p2 a2 : GLuint) :
    ∀ e ∈ render window p1 a1 p2 a2, e.isStatusReport = false := by
  intro e he
  simp only [render, List.mem_cons, List.mem_singleton, List.not_mem_nil, or_false] at he
  rcases he with h | h | h | h | h | h | h | h | h | h | h | h <;> subst h <;> rfl

theorem statusReport_loop (env : Env) (w : Window) (hw : w ≠ 0) (fuel i : Nat) :
    ∀ e ∈ (renderLoop env [w] fuel i).1, e.isStatusReport = false := by
  apply renderLoop_forall
  intro j e he
  rcases mem_loopBody_single env w j hw e he with h | h | h
  · subst h; rfl
  · subst h; rfl
  · exact statusReport_render _ _ _ _ _ e h

theorem filter_loop_statusReport (env : Env) (w : Window) (hw : w ≠ 0) (fuel i : Nat) :
    (renderLoop env [w] fuel i).1.filter Event.isStatusReport = [] := by
  rw [List.filter_eq_nil_iff]
  intro e he
  simp [statusReport_loop env w hw fuel i e he]

theorem filter_setup_statusReport (env : Env) :
    (setup env).filter Event.isStatusReport = allChecks.flatMap (specReport env) := by
  simp only [setup, bufferSetup, vertexShaderSetup, fragmentShaderSetup, programSetup,
    vertexArraySetup, allChecks, List.flatMap_cons, List.flatMap_nil, specReport, diagnostic]
  split_ifs <;> rfl

/-- C6: in a run that gets past initialization, the status queries, info log
queries and writes to standard output are exactly the reports of the five
checks, in order, each as the claim words it (one status query; the info log
of the same object and the message of the check followed by that log, if and
only if the status is zero); so there are five status queries and as many
diagnostics written as there are checks whose status is zero. -/
theorem status_checks_reported_once (env : Env) (fuel : Nat) (hinit : env.glfwInit = true)
    (hwin : env.glfwCreateWindow ≠ 0) :
    (main env fuel).trace.filter Event.isStatusReport = allChecks.flatMap (specReport env) ∧
    (main env fuel).trace.countP Event.isStatusQuery = 5 ∧
    (main env fuel).trace.countP Event.isCout
      = allChecks.countP (fun c => decide (env.status c = 0)) := by
  have key : (main env fuel).trace.filter Event.isStatusReport
      = allChecks.flatMap (specReport env) := by
    rw [main_running env fuel hinit hwin]
    split
    · simp only [List.filter_append, filter_loop_statusReport env _ hwin,
        filter_setup_statusReport]
      simp [windowSetup, shutdown, Event.isStatusReport]
    · simp only [List.filter_append, filter_loop_statusReport env _ hwin,
        filter_setup_statusReport]
      simp [windowSetup, Event.isStatusReport]
  have hq : ∀ t : List Event, t.countP Event.isStatusQuery
      = (t.filter Event.isStatusReport).countP Event.isStatusQuery := by
    intro t
    rw [List.countP_filter]
    apply List.countP_congr
    intro e _
    cases e <;> simp [Event.isStatusQuery, Event.isStatusReport]
  have hc : ∀ t : List Event, t.countP Event.isCout
      = (t.filter Event.isStatusReport).countP Event.isCout := by
    intro t
    rw [List.countP_filter]
    apply List.countP_congr
    intro e _
    cases e <;> simp [Event.isCout, Event.isStatusReport]
  refine ⟨key, ?_, ?_⟩
  · rw [hq, key]
    simp only [allChecks, List.flatMap_cons, List.flatMap_nil, specReport]
    split_ifs <;> rfl
  · have h1 : ∀ c, (specReport env c).countP Event.isCout
        = if env.status c = 0 then 1 else 0 := by
      intro c
      simp only [specReport]
      split_ifs <;> cases c <;> rfl
    rw [hc, key]
    simp only [allChecks, List.flatMap_cons, List.flatMap_nil, List.countP_append, h1,
      List.countP_cons, List.countP_nil, List.append_nil, decide_eq_true_eq]
    split_ifs <;> rfl

/-- C6 at a concrete run: the vertex shader fails to compile and the second
program fails to link, and exactly those two checks are reported. -/
theorem status_checks_reported_once_witness :
    (main failingEnv 1).trace.filter Event.isStatusReport
      = allChecks.flatMap (specReport failingEnv) ∧
    (main failingEnv 1).trace.countP Event.isStatusQuery = 5 ∧
    (main failingEnv 1).trace.countP Event.isCout
      = allChecks.countP (fun c => decide (failingEnv.status c = 0)) :=
  status_checks_reported_once failingEnv 1 rfl (by decide)

/-! ### Independence of the statuses -/

theorem renderLoop_status (env : Env) (status2 : Check → Int) (infoLog2 : Check → String)
    (window : List Window) :
    ∀ fuel i, renderLoop { env with status := status2, infoLog := infoLog2 } window fuel i
      = renderLoop env window fuel i := by
  intro fuel
  induction fuel with
  | zero => intro i; rfl
  | succ fuel ih =>
    intro i
    simp only [renderLoop, ih]
    rfl

theorem setup_state_changing (env : Env) (status2 : Check → Int) (infoLog2 : Check → String) :
    (setup { env with status := status2, infoLog := infoLog2 }).filter
        (fun e => !e.isStatusReport)
      = (setup env).filter (fun e => !e.isStatusReport) := by
  have h1 : (vertexShaderSetup { env with status := status2, infoLog := infoLog2 }).filter
        (fun e => !e.isStatusReport)
      = (vertexShaderSetup env).filter (fun e => !e.isStatusReport) := by
    simp only [vertexShaderSetup]
    split_ifs <;> rfl
  have h2 : (fragmentShaderSetup { env with status := status2, infoLog := infoLog2 }).filter
        (fun e => !e.isStatusReport)
      = (fragmentShaderSetup env).filter (fun e => !e.isStatusReport) := by
    simp only [fragmentShaderSetup]
    split_ifs <;> rfl
  have h3 : (programSetup { env with status := status2, infoLog := infoLog2 }).filter
        (fun e => !e.isStatusReport)
      = (programSetup env).filter (fun e => !e.isStatusReport) := by
    simp only [programSetup]
    split_ifs <;> rfl
  simp only [setup, List.filter_append, h1, h2, h3]
  rfl

theorem setup_without_diagnostics (env : Env) (status2 : Check → Int)
    (infoLog2 : Check → String) :
    ((setup { env with status := status2, infoLog := infoLog2 }).filter
        (fun e => !e.isDiagnostic)).map Event.withoutStatus
      = ((setup env).filter (fun e => !e.isDiagnostic)).map Event.withoutStatus := by
  have h1 : ((vertexShaderSetup { env with status := status2, infoLog := infoLog2 }).filter
        (fun e => !e.isDiagnostic)).map Event.withoutStatus
      = ((vertexShaderSetup env).filter (fun e => !e.isDiagnostic)).map Event.withoutStatus := by
    simp only [vertexShaderSetup]
    split_ifs <;> rfl
  have h2 : ((fragmentShaderSetup { env with status := status2, infoLog := infoLog2 }).filter
        (fun e => !e.isDiagnostic)).map Event.withoutStatus
      = ((fragmentShaderSetup env).filter (fun e => !e.isDiagnostic)).map
          Event.withoutStatus := by
    simp only [fragmentShaderSetup]
    split_ifs <;> rfl
  have h3 : ((programSetup { env with status := status2, infoLog := infoLog2 }).filter
        (fun e => !e.isDiagnostic)).map Event.withoutStatus
      = ((programSetup env).filter (fun e => !e.isDiagnostic)).map Event.withoutStatus := by
    simp only [programSetup]
    split_ifs <;> rfl
  simp only [setup, List.filter_append, List.map_append, h1, h2, h3]
  rfl

/-- C7: two runs that differ only in the five statuses (and the info logs)
the driver returns have the same exit status and, status queries, info log
queries and writes to standard output left out, the same sequence of calls;
even the status queries are the same calls on the same objects, so with the
answers of the status queries blanked the runs differ only in info log queries
and writes to standard output. -/
theorem continues_regardless_of_status (env : Env) (status2 : Check → Int)
    (infoLog2 : Check → String) (fuel : Nat) :
    (main { env with status := status2, infoLog := infoLog2 } fuel).exit = (main env fuel).exit ∧
    (main { env with status := status2, infoLog := infoLog2 } fuel).trace.filter
        (fun e => !e.isStatusReport)
      = (main env fuel).trace.filter (fun e => !e.isStatusReport) ∧
    ((main { env with status := status2, infoLog := infoLog2 } fuel).trace.filter
        (fun e => !e.isDiagnostic)).map Event.withoutStatus
      = ((main env fuel).trace.filter (fun e => !e.isDiagnostic)).map Event.withoutStatus := by
  obtain hinit | hinit := Bool.eq_false_or_eq_true env.glfwInit |>.symm
  · have e1 : main { env with status := status2, infoLog := infoLog2 } fuel
        = ⟨[Event.glfwInit false], some ExitStatus.EXIT_FAILURE⟩ := by simp [main, hinit]
    have e2 : main env fuel = ⟨[Event.glfwInit false], some ExitStatus.EXIT_FAILURE⟩ := by
      simp [main, hinit]
    rw [e1, e2]
    exact ⟨rfl, rfl, rfl⟩
  · by_cases hwin : env.glfwCreateWindow = 0
    · have e1 : main { env with status := status2, infoLog := infoLog2 } fuel
          = ⟨windowSetup env 0 ++ [Event.glfwTerminate], some ExitStatus.EXIT_FAILURE⟩ := by
        simp [main, hinit, hwin, windowSetup]
      have e2 : main env fuel
          = ⟨windowSetup env 0 ++ [Event.glfwTerminate], some ExitStatus.EXIT_FAILURE⟩ := by
        simp [main, hinit, hwin]
      rw [e1, e2]
      exact ⟨rfl, rfl, rfl⟩
    · rw [main_running env fuel hinit hwin,
        main_running { env with status := status2, infoLog := infoLog2 } fuel hinit hwin]
      simp only [renderLoop_status]
      have hw : windowSetup { env with status := status2, infoLog := infoLog2 } 0
          = windowSetup env 0 := rfl
      split
      · refine ⟨rfl, ?_, ?_⟩
        · simp only [List.filter_append, setup_state_changing, hw]
        · simp only [List.filter_append, List.map_append, setup_without_diagnostics, hw]
      · refine ⟨rfl, ?_, ?_⟩
        · simp only [List.filter_append, setup_state_changing, hw]
        · simp only [List.filter_append, List.map_append, setup_without_diagnostics, hw]

/-! ### The state machine on the parts of `main` -/

theorem glRun_append (s : GLState) (a b : List Event) :
    glRun s (a ++ b) = glRun (glRun s a) b := by
  simp [glRun]

theorem glRun_loopBody (env : Env) (w : Window) (hw : w ≠ 0) (i : Nat) (s : GLState) :
    glRun s (loopBody env [w] i).1 =
      { s with
        program := env.createProgram2
        vertexArray := env.genVertexArrays2.1
        polygonMode := GLenum.GL_FILL
        output := s.output ++
          [ Output.clear GLenum.GL_COLOR_BUFFER_BIT,
            Output.draw env.createProgram env.VAO1 s.polygonMode
              GLenum.GL_TRIANGLES 0 3,
            Output.draw env.createProgram2 env.genVertexArrays2.1 GLenum.GL_LINE
              GLenum.GL_TRIANGLES 0 3,
            Output.swapBuffers w,
            Output.pollEvents ] } := by
  cases h : env.shouldClose i w
  · rw [loopBody_clear env w i hw h]
    simp [glRun, render, glStep]
  · rw [loopBody_set env w i hw h]
    simp [glRun, render, glStep]

/-- A part of the state that the calls outside a class `p` leave alone is the
same before and after a sequence of such calls. -/
theorem glRun_proj {α : Type} (π : GLState → α) (p : Event → Bool)
    (hstep : ∀ s e, p e = false → π (glStep s e) = π s) :
    ∀ (t : List Event) (s : GLState), (∀ e ∈ t, p e = false) → π (glRun s t) = π s := by
  intro t
  induction t with
  | nil => intro s _; rfl
  | cons e t ih =>
    intro s h
    have h1 := ih (glStep s e) (fun x hx => h x (List.mem_cons_of_mem _ hx))
    have h2 := hstep s e (h e (List.mem_cons_self _ _))
    simp only [glRun, List.foldl_cons] at h1 ⊢
    rw [h1, h2]

/-- The shader and program part of the state. -/
theorem glStep_shaders (s : GLState) (e : Event) (h : e.isShaderCall = false) :
    (fun x : GLState => (x.shaderSource, x.compiledSource, x.attached, x.linked)) (glStep s e)
    = (s.shaderSource, s.compiledSource, s.attached, s.linked) := by
  cases e <;> simp only [Event.isShaderCall, Bool.true_eq_false] at h <;>
    simp only [glStep] <;> split_ifs <;> rfl

/-- The polygon mode and the output. -/
theorem glStep_drawing (s : GLState) (e : Event) (h : e.inRenderLoop = false) :
    (fun x : GLState => (x.polygonMode, x.output)) (glStep s e)
    = (s.polygonMode, s.output) := by
  cases e <;> simp only [Event.inRenderLoop, Bool.true_eq_false] at h <;>
    simp only [glStep] <;> split_ifs <;> rfl

theorem setup_eq (env : Env) :
    setup env = bufferSetup env ++ shaderSetup env ++ vertexArraySetup env := by
  simp [setup, shaderSetup]

theorem setup_not_inRenderLoop (env : Env) :
    ∀ e ∈ setup env, e.inRenderLoop = false := by
  have h : (setup env).all (fun e => !e.inRenderLoop) = true := by
    simp only [setup, bufferSetup, vertexShaderSetup, fragmentShaderSetup, programSetup,
      vertexArraySetup]
    split_ifs <;> rfl
  intro e he
  simpa using List.all_eq_true.1 h e he

theorem closeChecks_loopBody (env : Env) (w : Window) (hw : w ≠ 0) (i : Nat) :
    closeChecks (loopBody env [w] i).1 = [env.shouldClose i w] := by
  cases h : env.shouldClose i w
  · rw [loopBody_clear env w i hw h]; rfl
  · rw [loopBody_set env w i hw h]; rfl

/-- Every pass through the loop body starts and ends with polygon mode
`GL_FILL` and shows exactly one frame. -/
theorem glRun_renderLoop_output (env : Env) (hw : env.glfwCreateWindow ≠ 0) :
    ∀ fuel i (s : GLState), s.polygonMode = GLenum.GL_FILL →
      (glRun s (renderLoop env [env.glfwCreateWindow] fuel i).1).polygonMode = GLenum.GL_FILL ∧
      (glRun s (renderLoop env [env.glfwCreateWindow] fuel i).1).output =
        s.output ++ (List.replicate
          (closeChecks (renderLoop env [env.glfwCreateWindow] fuel i).1).length
          (specFrame env)).flatten := by
  intro fuel
  induction fuel with
  | zero => intro i s hs; simp [renderLoop, glRun, closeChecks, hs]
  | succ fuel ih =>
    intro i s hs
    simp only [renderLoop]
    split
    · rw [glRun_loopBody env _ hw, closeChecks_loopBody env _ hw, hs]
      simp [specFrame]
    · rw [glRun_append, closeChecks_append, glRun_loopBody env _ hw,
        closeChecks_loopBody env _ hw, hs]
      obtain ⟨h1, h2⟩ := ih (i + 1)
        { s with
          program := env.createProgram2
          vertexArray := env.genVertexArrays2.1
          polygonMode := GLenum.GL_FILL
          output := s.output ++
            [ Output.clear GLenum.GL_COLOR_BUFFER_BIT,
              Output.draw env.createProgram env.VAO1 GLenum.GL_FILL
                GLenum.GL_TRIANGLES 0 3,
              Output.draw env.createProgram2 env.genVertexArrays2.1 GLenum.GL_LINE
                GLenum.GL_TRIANGLES 0 3,
              Output.swapBuffers env.glfwCreateWindow,
              Output.pollEvents ] } rfl
      refine ⟨h1, ?_⟩
      rw [h2, List.length_append, List.length_singleton, Nat.add_comm 1, List.replicate_succ,
        List.flatten_cons]
      simp [specFrame]

/-- C2: starting from a fresh context, in either memory layout, what a run
shows is one frame per iteration of the render loop begun (one per close check
made), each frame being: clear the colour buffer, draw 3 vertices with
`shaderProgram` and `VAO1` in polygon mode `GL_FILL`, draw 3 vertices with
`shaderProgram2` and `VAO2` in polygon mode `GL_LINE`, swap the buffers of
`window[0]`, poll events; and the polygon mode is `GL_FILL` again after every
iteration.  `VAO1` is the value the program reads from that variable. -/
theorem every_iteration_shows_frame (env : Env) (fuel : Nat) :
    (glRun GLState.initial (main env fuel).trace).output =
      (List.replicate (closeChecks (main env fuel).trace).length (specFrame env)).flatten ∧
    (glRun GLState.initial (main env fuel).trace).polygonMode = GLenum.GL_FILL := by
  obtain hinit | hinit := Bool.eq_false_or_eq_true env.glfwInit |>.symm
  · have e : main env fuel = ⟨[Event.glfwInit false], some ExitStatus.EXIT_FAILURE⟩ := by
      simp [main, hinit]
    rw [e]
    exact ⟨rfl, rfl⟩
  · by_cases hwin : env.glfwCreateWindow = 0
    · have e : main env fuel
          = ⟨windowSetup env 0 ++ [Event.glfwTerminate], some ExitStatus.EXIT_FAILURE⟩ := by
        simp [main, hinit, hwin]
      rw [e]
      exact ⟨rfl, rfl⟩
    · have hpre : closeChecks (windowSetup env 0 ++
          [Event.glfwSetKeyCallback env.glfwCreateWindow, Event.glfwSwapInterval 1]) = [] := rfl
      have hstart : glRun GLState.initial (windowSetup env 0 ++
          [Event.glfwSetKeyCallback env.glfwCreateWindow, Event.glfwSwapInterval 1])
            = GLState.initial := rfl
      have hset := glRun_proj (fun x : GLState => (x.polygonMode, x.output)) Event.inRenderLoop
        glStep_drawing (setup env) GLState.initial (setup_not_inRenderLoop env)
      simp only [Prod.mk.injEq] at hset
      obtain ⟨h1, h2⟩ := glRun_renderLoop_output env hwin fuel 0
        (glRun GLState.initial (setup env)) hset.1
      rw [hset.2] at h2
      have hshut : ∀ s : GLState, glRun s (shutdown [env.glfwCreateWindow]) = s := fun _ => rfl
      rw [main_running env fuel hinit hwin]
      split
      · simp only [glRun_append, hstart, hshut, closeChecks_append, hpre, closeChecks_setup,
          List.nil_append]
        rw [show closeChecks (shutdown [env.glfwCreateWindow]) = [] from rfl, List.append_nil]
        exact ⟨by simpa [GLState.initial] using h2, h1⟩
      · simp only [glRun_append, hstart, closeChecks_append, hpre, closeChecks_setup,
          List.nil_append]
        exact ⟨by simpa [GLState.initial] using h2, h1⟩

/-- C2 at a concrete run in the layout where the second vertex array name
lands on `VAO1`: followed for one iteration, the run shows one frame, and the
first draw uses program 4 with vertex array 3, the second program 5 with
vertex array 2. -/
theorem every_iteration_shows_frame_witness :
    (glRun GLState.initial (main sampleEnv 1).trace).output =
      [ Output.clear GLenum.GL_COLOR_BUFFER_BIT,
        Output.draw 4 3 GLenum.GL_FILL GLenum.GL_TRIANGLES 0 3,
        Output.draw 5 2 GLenum.GL_LINE GLenum.GL_TRIANGLES 0 3,
        Output.swapBuffers 7,
        Output.pollEvents ] :=
  (every_iteration_shows_frame sampleEnv 1).1.trans rfl

/-! ### The objects after initialization -/

theorem glStep_objects (s : GLState) (e : Event) (h : e.writesObject = false) :
    (fun x : GLState => (x.bufferData, x.attribPointer, x.attribEnabled, x.shaderSource,
      x.compiledSource, x.attached, x.linked)) (glStep s e)
    = (s.bufferData, s.attribPointer, s.attribEnabled, s.shaderSource, s.compiledSource,
        s.attached, s.linked) := by
  cases e <;> simp only [Event.writesObject, Bool.true_eq_false] at h <;>
    first | rfl | (simp only [glStep]; split_ifs <;> rfl)

theorem writesObject_loop (env : Env) (w : Window) (hw : w ≠ 0) (fuel i : Nat) :
    ∀ e ∈ (renderLoop env [w] fuel i).1, e.writesObject = false := by
  apply renderLoop_forall
  intro j e he
  rcases mem_loopBody_single env w j hw e he with h | h | h
  · subst h; rfl
  · subst h; rfl
  · simp only [render, List.mem_cons, List.mem_singleton, List.not_mem_nil, or_false] at h
    rcases h with h | h | h | h | h | h | h | h | h | h | h | h <;> subst h <;> rfl

/-- The objects after a run that got past initialization are those `setup`
built: the render loop and the shutdown write none. -/
theorem objects_main (env : Env) (fuel : Nat) (hinit : env.glfwInit = true)
    (hwin : env.glfwCreateWindow ≠ 0) :
    (fun x : GLState => (x.bufferData, x.attribPointer, x.attribEnabled, x.shaderSource,
      x.compiledSource, x.attached, x.linked)) (glRun GLState.initial (main env fuel).trace)
    = (fun x : GLState => (x.bufferData, x.attribPointer, x.attribEnabled, x.shaderSource,
      x.compiledSource, x.attached, x.linked)) (glRun GLState.initial (setup env)) := by
  have hstart : glRun GLState.initial (windowSetup env 0 ++
      [Event.glfwSetKeyCallback env.glfwCreateWindow, Event.glfwSwapInterval 1])
        = GLState.initial := rfl
  have hshut : ∀ s : GLState, glRun s (shutdown [env.glfwCreateWindow]) = s := fun _ => rfl
  have hloop := glRun_proj (fun x : GLState => (x.bufferData, x.attribPointer, x.attribEnabled,
    x.shaderSource, x.compiledSource, x.attached, x.linked)) Event.writesObject glStep_objects
    (renderLoop env [env.glfwCreateWindow] fuel 0).1 (glRun GLState.initial (setup env))
    (writesObject_loop env _ hwin fuel 0)
  rw [main_running env fuel hinit hwin]
  split
  · simp only [glRun_append, hstart, hshut]
    exact hloop
  · simp only [glRun_append, hstart]
    exact hloop

theorem shaderSetup_filter (env : Env) :
    (shaderSetup env).filter (fun e => !e.isStatusReport) = shaderCalls env := by
  simp only [shaderSetup, vertexShaderSetup, fragmentShaderSetup, programSetup]
  split_ifs <;> rfl

theorem glStep_statusReport (s : GLState) (e : Event) (h : e.isStatusReport = true) :
    glStep s e = s := by
  cases e <;> first | rfl | simp [Event.isStatusReport] at h

theorem glRun_filter (t : List Event) :
    ∀ s, glRun s (t.filter (fun e => !e.isStatusReport)) = glRun s t := by
  induction t with
  | nil => intro s; rfl
  | cons e t ih =>
    intro s
    cases h : e.isStatusReport
    · simp only [List.filter_cons, h, Bool.not_false, if_true]
      simp only [glRun, List.foldl_cons] at ih ⊢
      exact ih _
    · simp only [List.filter_cons, h, Bool.not_true, Bool.false_eq_true, if_false]
      simp only [glRun, List.foldl_cons, glStep_statusReport s e h] at ih ⊢
      exact ih _

theorem glRun_shaderCalls (env : Env) (s : GLState) (h : env.FreshShaderNames)
    (h1 : s.attached env.createProgram = []) (h2 : s.attached env.createProgram2 = []) :
    (glRun s (shaderCalls env)).linked = fun p =>
      if p = env.createProgram2 then
        some [(env.createVertexShader, some vertexShaderSource),
              (env.createFragmentShader2, some fragSource2)]
      else if p = env.createProgram then
        some [(env.createVertexShader, some vertexShaderSource),
              (env.createFragmentShader, some fragSource)]
      else s.linked p := by
  obtain ⟨v0, f0, g0, vf, vg, fg, p0, q0, pq⟩ := h
  simp [shaderCalls, glRun, glStep, v0, f0, g0, vf, vg, fg, p0, q0, pq, h1, h2, Ne.symm vf,
    Ne.symm vg, Ne.symm fg, Ne.symm pq]

theorem inLoopBody_loop (env : Env) (w : Window) (hw : w ≠ 0) (fuel i : Nat) :
    ∀ e ∈ (renderLoop env [w] fuel i).1, e.inLoopBody = true := by
  apply renderLoop_forall
  intro j e he
  rcases mem_loopBody_single env w j hw e he with h | h | h
  · subst h; rfl
  · subst h; rfl
  · simp only [render, List.mem_cons, List.mem_singleton, List.not_mem_nil, or_false] at h
    rcases h with h | h | h | h | h | h | h | h | h | h | h | h <;> subst h <;> rfl

theorem filterMap_loop {α : Type} (f : Event → Option α)
    (hf : ∀ e, e.inLoopBody = true → f e = none) (env : Env) (w : Window) (hw : w ≠ 0)
    (fuel i : Nat) : (renderLoop env [w] fuel i).1.filterMap f = [] := by
  rw [List.filterMap_eq_nil_iff]
  intro e he
  exact hf e (inLoopBody_loop env w hw fuel i e he)

theorem shaders_setup (env : Env) (h : env.FreshShaderNames) :
    (glRun GLState.initial (setup env)).linked = fun p =>
      if p = env.createProgram2 then
        some [(env.createVertexShader, some vertexShaderSource),
              (env.createFragmentShader2, some fragSource2)]
      else if p = env.createProgram then
        some [(env.createVertexShader, some vertexShaderSource),
              (env.createFragmentShader, some fragSource)]
      else none := by
  have hA := glRun_proj (fun x : GLState => (x.shaderSource, x.compiledSource, x.attached,
    x.linked)) Event.isShaderCall glStep_shaders (bufferSetup env) GLState.initial
    (by
      have h : (bufferSetup env).all (fun e => !e.isShaderCall) = true := rfl
      intro e he
      simpa using List.all_eq_true.1 h e he)
  have hC := glRun_proj (fun x : GLState => (x.shaderSource, x.compiledSource, x.attached,
    x.linked)) Event.isShaderCall glStep_shaders (vertexArraySetup env)
    (glRun (glRun GLState.initial (bufferSetup env)) (shaderSetup env))
    (by
      have h : (vertexArraySetup env).all (fun e => !e.isShaderCall) = true := rfl
      intro e he
      simpa using List.all_eq_true.1 h e he)
  simp only [Prod.mk.injEq] at hA hC
  obtain ⟨_, _, a3, a4⟩ := hA
  obtain ⟨_, _, _, c4⟩ := hC
  rw [setup_eq, glRun_append, glRun_append, c4, ← glRun_filter (shaderSetup env),
    shaderSetup_filter,
    glRun_shaderCalls env _ h (by rw [a3]; rfl) (by rw [a3]; rfl), a4]
  rfl

theorem created_setup (env : Env) :
    (setup env).filterMap Event.createdShader =
      [ (GLenum.GL_VERTEX_SHADER, env.createVertexShader),
        (GLenum.GL_FRAGMENT_SHADER, env.createFragmentShader),
        (GLenum.GL_FRAGMENT_SHADER, env.createFragmentShader2) ] ∧
    (setup env).filterMap Event.createdProgram = [env.createProgram, env.createProgram2] ∧
    (setup env).filterMap Event.linkedProgram = [env.createProgram, env.createProgram2] := by
  simp only [setup, bufferSetup, vertexShaderSetup, fragmentShaderSetup, programSetup,
    vertexArraySetup]
  split_ifs <;> exact ⟨rfl, rfl, rfl⟩

theorem filterMap_main {α : Type} (f : Event → Option α)
    (hf : ∀ e, e.inLoopBody = true → f e = none)
    (hg : ∀ e, e.createsObject = false → e.isShaderCall = false → f e = none)
    (env : Env) (fuel : Nat) (hinit : env.glfwInit = true) (hwin : env.glfwCreateWindow ≠ 0) :
    (main env fuel).trace.filterMap f = (setup env).filterMap f := by
  have hpre : (windowSetup env 0 ++
      [Event.glfwSetKeyCallback env.glfwCreateWindow, Event.glfwSwapInterval 1]).filterMap f
        = [] := by
    rw [List.filterMap_eq_nil_iff]
    intro e he
    simp only [windowSetup, List.cons_append, List.nil_append, List.mem_cons,
      List.mem_singleton, List.not_mem_nil, or_false] at he
    rcases he with h | h | h | h | h | h | h | h | h | h | h <;> subst h <;> exact hg _ rfl rfl
  have hshut : (shutdown [env.glfwCreateWindow]).filterMap f = [] := by
    rw [List.filterMap_eq_nil_iff]
    intro e he
    simp only [shutdown, List.map_cons, List.map_nil, List.cons_append, List.nil_append,
      List.mem_cons, List.mem_singleton, List.not_mem_nil, or_false] at he
    rcases he with h | h <;> subst h <;> exact hg _ rfl rfl
  rw [main_running env fuel hinit hwin]
  split
  · simp only [List.filterMap_append, hpre, hshut, filterMap_loop f hf env _ hwin,
      List.nil_append, List.append_nil]
  · simp only [List.filterMap_append, hpre, filterMap_loop f hf env _ hwin,
      List.nil_append, List.append_nil]

/-- Successful creating calls of a driver that hands out no live name twice
answer nonzero, pairwise distinct names. -/
theorem fresh_of_created (env : Env) (hc : env.ShadersCreated) (hs : env.DistinctShaders)
    (hp : env.DistinctPrograms) : env.FreshShaderNames := by
  obtain ⟨v0, f0, g0, p0, q0⟩ := hc
  obtain ⟨d1, d2, d3⟩ := hs
  exact ⟨v0, f0, g0, fun h => v0 (d1 h), fun h => v0 (d2 h), fun h => f0 (d3 h), p0, q0,
    fun h => p0 (hp h)⟩

/-- C9, as amended: in a run that gets past initialization and in which every
`glCreateShader` and `glCreateProgram` call succeeds (answers a nonzero name),
the driver handing out no live name twice: one vertex shader and two fragment
shaders are created, and two programs, each linked once; when `shaderProgram`
is linked the shaders attached to it are exactly `vertexShader` and
`fragmentShader`, when `shaderProgram2` is linked they are exactly
`vertexShader` and `fragmentShader2`, and each attached shader has by then
been compiled from its own source (`vertexShaderSource`, `fragSource`,
`fragSource2`); the two programs are distinct objects and so are the two
fragment shaders. -/
theorem programs_linked_from_shared_vertex_shader (env : Env) (fuel : Nat)
    (hinit : env.glfwInit = true) (hwin : env.glfwCreateWindow ≠ 0)
    (hcreated : env.ShadersCreated) (hshaders : env.DistinctShaders)
    (hprograms : env.DistinctPrograms) :
    (main env fuel).trace.filterMap Event.createdShader =
      [ (GLenum.GL_VERTEX_SHADER, env.createVertexShader),
        (GLenum.GL_FRAGMENT_SHADER, env.createFragmentShader),
        (GLenum.GL_FRAGMENT_SHADER, env.createFragmentShader2) ] ∧
    (main env fuel).trace.filterMap Event.createdProgram
      = [env.createProgram, env.createProgram2] ∧
    (main env fuel).trace.filterMap Event.linkedProgram
      = [env.createProgram, env.createProgram2] ∧
    (glRun GLState.initial (main env fuel).trace).linked env.createProgram =
      some [ (env.createVertexShader, some vertexShaderSource),
             (env.createFragmentShader, some fragSource) ] ∧
    (glRun GLState.initial (main env fuel).trace).linked env.createProgram2 =
      some [ (env.createVertexShader, some vertexShaderSource),
             (env.createFragmentShader2, some fragSource2) ] ∧
    env.createProgram ≠ env.createProgram2 ∧
    env.createFragmentShader ≠ env.createFragmentShader2 := by
  have hfresh := fresh_of_created env hcreated hshaders hprograms
  obtain ⟨c1, c2, c3⟩ := created_setup env
  have hobj := objects_main env fuel hinit hwin
  simp only [Prod.mk.injEq] at hobj
  obtain ⟨_, _, _, _, _, _, o7⟩ := hobj
  have hpq : env.createProgram ≠ env.createProgram2 := hfresh.2.2.2.2.2.2.2.2
  have hfg : env.createFragmentShader ≠ env.createFragmentShader2 := hfresh.2.2.2.2.2.1
  refine ⟨?_, ?_, ?_, ?_, ?_, hpq, hfg⟩
  · rw [filterMap_main _ (by intro e h; cases e <;> first | rfl | simp [Event.inLoopBody] at h)
      (by intro e h1 h2; cases e <;> first | rfl | simp [Event.createsObject] at h1)
      env fuel hinit hwin, c1]
  · rw [filterMap_main _ (by intro e h; cases e <;> first | rfl | simp [Event.inLoopBody] at h)
      (by intro e h1 h2; cases e <;> first | rfl | simp [Event.createsObject] at h1)
      env fuel hinit hwin, c2]
  · rw [filterMap_main _ (by intro e h; cases e <;> first | rfl | simp [Event.inLoopBody] at h)
      (by intro e h1 h2; cases e <;> first | rfl | simp [Event.isShaderCall] at h2)
      env fuel hinit hwin, c3]
  · rw [o7, shaders_setup env hfresh]
    simp [hpq]
  · rw [o7, shaders_setup env hfresh]
    simp

/-- C9 as amended, at a concrete run: programs 4 and 5 share vertex shader 1. -/
theorem programs_linked_from_shared_vertex_shader_witness :
    (glRun GLState.initial (main sampleEnv 1).trace).linked sampleEnv.createProgram =
      some [ (sampleEnv.createVertexShader, some vertexShaderSource),
             (sampleEnv.createFragmentShader, some fragSource) ] ∧
    (glRun GLState.initial (main sampleEnv 1).trace).linked sampleEnv.createProgram2 =
      some [ (sampleEnv.createVertexShader, some vertexShaderSource),
             (sampleEnv.createFragmentShader2, some fragSource2) ] ∧
    sampleEnv.createProgram ≠ sampleEnv.createProgram2 ∧
    sampleEnv.createFragmentShader ≠ sampleEnv.createFragmentShader2 :=
  (programs_linked_from_shared_vertex_shader sampleEnv 1 rfl (by decide)
    (by unfold Env.ShadersCreated; decide) (by unfold Env.DistinctShaders; decide)
    (by unfold Env.DistinctPrograms; decide)).2.2.2

/-- C9 as stated fails: in this run both `glCreateShader (GL_FRAGMENT_SHADER)`
calls answer `0`, the program goes on, and when `shaderProgram` and
`shaderProgram2` are linked each has the vertex shader alone attached; the two
fragment shader names are equal. -/
theorem programs_linked_counterexample :
    (glRun GLState.initial (main createFailEnv 1).trace).linked createFailEnv.createProgram =
      some [(createFailEnv.createVertexShader, some vertexShaderSource)] ∧
    (glRun GLState.initial (main createFailEnv 1).trace).linked createFailEnv.createProgram2 =
      some [(createFailEnv.createVertexShader, some vertexShaderSource)] ∧
    createFailEnv.createFragmentShader = createFailEnv.createFragmentShader2 := by
  refine ⟨rfl, rfl, rfl⟩

/-! ### Handles -/

theorem mem_handles (h : Handle) (k : Kind) (values : List Nat) :
    h ∈ handles k values ↔ h.1 = k ∧ h.2 ≠ 0 ∧ h.2 ∈ values := by
  obtain ⟨a, b⟩ := h
  simp only [handles, List.mem_map, List.mem_filter, decide_eq_true_eq, Prod.mk.injEq]
  constructor
  · rintro ⟨v, ⟨hv, hv0⟩, rfl, rfl⟩
    exact ⟨rfl, hv0, hv⟩
  · rintro ⟨rfl, h0, hv⟩
    exact ⟨b, ⟨hv, h0⟩, rfl, rfl⟩

theorem handlesOk_append (a b : List Event) :
    ∀ created deleted, handlesOk created deleted (a ++ b) ↔
      handlesOk created deleted a ∧
      handlesOk (created ++ a.flatMap Event.creates) (deleted ++ a.flatMap Event.deletes) b := by
  induction a with
  | nil => intro c d; simp [handlesOk]
  | cons e a ih =>
    intro c d
    simp only [List.cons_append, List.flatMap_cons]
    show (_ ∧ handlesOk _ _ (a ++ b)) ↔ ((_ ∧ handlesOk _ _ a) ∧ _)
    rw [ih, List.append_assoc, List.append_assoc, and_assoc]

/-- The reading of `handlesOk` on positions of the trace. -/
theorem handlesOk_sound (t : List Event) :
    ∀ created deleted, handlesOk created deleted t →
      ∀ before e after, t = before ++ e :: after → ∀ h ∈ e.uses,
        (h ∈ created ∨ ∃ c ∈ before, h ∈ c.creates) ∧
        (h ∉ deleted ∧ ∀ d ∈ before, h ∉ d.deletes) := by
  induction t with
  | nil => intro c d _ before e after ht; simp at ht
  | cons x t ih =>
    intro c d hok before e after ht h hh
    obtain ⟨h1, h2⟩ := hok
    cases before with
    | nil =>
      simp only [List.nil_append, List.cons.injEq] at ht
      obtain ⟨rfl, _⟩ := ht
      exact ⟨Or.inl (h1 h hh).1, (h1 h hh).2, by simp⟩
    | cons y before =>
      simp only [List.cons_append, List.cons.injEq] at ht
      obtain ⟨rfl, rfl⟩ := ht
      obtain ⟨r1, r2, r3⟩ := ih _ _ h2 before e after rfl h hh
      refine ⟨?_, ?_, ?_⟩
      · rcases r1 with r | ⟨c0, hc0, hc1⟩
        · rcases List.mem_append.1 r with r | r
          · exact Or.inl r
          · exact Or.inr ⟨x, List.mem_cons_self _ _, r⟩
        · exact Or.inr ⟨c0, List.mem_cons_of_mem _ hc0, hc1⟩
      · exact fun hd => r2 (List.mem_append_left _ hd)
      · intro d0 hd0
        rcases List.mem_cons.1 hd0 with rfl | hd0
        · exact fun hd => r2 (List.mem_append_right _ hd)
        · exact r3 d0 hd0

/-- Calls that create and delete nothing and take only live handles keep
`handlesOk`. -/
theorem handlesOk_of_forall (created deleted : List Handle) (t : List Event)
    (h : ∀ e ∈ t, e.creates = [] ∧ e.deletes = [] ∧
      ∀ x ∈ e.uses, x ∈ created ∧ x ∉ deleted) :
    handlesOk created deleted t ∧ t.flatMap Event.creates = [] ∧
      t.flatMap Event.deletes = [] := by
  induction t with
  | nil => exact ⟨trivial, rfl, rfl⟩
  | cons e t ih =>
    obtain ⟨h1, h2, h3⟩ := h e (List.mem_cons_self _ _)
    obtain ⟨i1, i2, i3⟩ := ih (fun x hx => h x (List.mem_cons_of_mem _ hx))
    refine ⟨⟨h3, ?_⟩, ?_, ?_⟩
    · rw [h1, h2, List.append_nil, List.append_nil]; exact i1
    · rw [List.flatMap_cons, h1, i2]; rfl
    · rw [List.flatMap_cons, h2, i3]; rfl

theorem handles_window_setup (env : Env) :
    handlesOk [] [] (windowSetup env 0 ++
      [Event.glfwSetKeyCallback env.glfwCreateWindow, Event.glfwSwapInterval 1]) ∧
    (windowSetup env 0 ++
      [Event.glfwSetKeyCallback env.glfwCreateWindow, Event.glfwSwapInterval 1]).flatMap
        Event.creates = handles Kind.window [env.glfwCreateWindow] ∧
    (windowSetup env 0 ++
      [Event.glfwSetKeyCallback env.glfwCreateWindow, Event.glfwSwapInterval 1]).flatMap
        Event.deletes = [] := by
  refine ⟨?_, ?_, ?_⟩
  · simp [windowSetup, handlesOk, Event.uses, Event.creates, Event.deletes]
  · simp [windowSetup, Event.creates]
  · simp [windowSetup, Event.deletes]

/-- The name the program reads from `VBO1` is one of the three generated. -/
theorem handles_VBO1 (env : Env) :
    ∀ h ∈ handles Kind.buffer [env.VBO1],
      h ∈ handles Kind.buffer [env.genBuffers1] ++
        handles Kind.buffer [env.genBuffers2.1, env.genBuffers2.2] := by
  intro h hh
  obtain ⟨x, y, z⟩ := (mem_handles h _ _).1 hh
  simp only [List.mem_singleton] at z
  unfold Env.VBO1 at z
  split_ifs at z
  · exact List.mem_append_right _ ((mem_handles h _ _).2 ⟨x, y, by simp [z]⟩)
  · exact List.mem_append_left _ ((mem_handles h _ _).2 ⟨x, y, by simp [z]⟩)

/-- The name the program reads from `VAO1` is one of the three generated. -/
theorem handles_VAO1 (env : Env) :
    ∀ h ∈ handles Kind.vertexArray [env.VAO1],
      h ∈ handles Kind.vertexArray [env.genVertexArrays1] ++
        handles Kind.vertexArray [env.genVertexArrays2.1, env.genVertexArrays2.2] := by
  intro h hh
  obtain ⟨x, y, z⟩ := (mem_handles h _ _).1 hh
  simp only [List.mem_singleton] at z
  unfold Env.VAO1 at z
  split_ifs at z
  · exact List.mem_append_right _ ((mem_handles h _ _).2 ⟨x, y, by simp [z]⟩)
  · exact List.mem_append_left _ ((mem_handles h _ _).2 ⟨x, y, by simp [z]⟩)

theorem handles_bufferSetup (env : Env) (created deleted : List Handle)
    (hd : ∀ h ∈ deleted, h.1 ≠ Kind.buffer) :
    handlesOk created deleted (bufferSetup env) ∧
    (bufferSetup env).flatMap Event.creates =
      handles Kind.buffer [env.genBuffers1] ++
        handles Kind.buffer [env.genBuffers2.1, env.genBuffers2.2] ∧
    (bufferSetup env).flatMap Event.deletes = [] := by
  refine ⟨?_, ?_, ?_⟩
  · simp only [bufferSetup, handlesOk, Event.uses, Event.creates, Event.deletes,
      List.append_nil, and_true, List.not_mem_nil, false_implies, implies_true, true_and]
    intro h hh
    have hk := ((mem_handles h _ _).1 hh).1
    refine ⟨?_, fun hx => hd h hx hk⟩
    rcases List.mem_append.1 (handles_VBO1 env h hh) with h1 | h1
    · exact List.mem_append_left _ (List.mem_append_right _ h1)
    · exact List.mem_append_right _ h1
  · simp [bufferSetup, Event.creates]
  · simp [bufferSetup, Event.deletes]

theorem handles_vertexShaderSetup (env : Env) (created deleted : List Handle)
    (hd : ∀ h ∈ deleted, h.1 ≠ Kind.shader) :
    handlesOk created deleted (vertexShaderSetup env) ∧
    (vertexShaderSetup env).flatMap Event.creates = handles Kind.shader [env.createVertexShader] ∧
    (vertexShaderSetup env).flatMap Event.deletes = [] := by
  have key : ∀ h ∈ handles Kind.shader [env.createVertexShader],
      h ∈ created ++ handles Kind.shader [env.createVertexShader] ∧ h ∉ deleted := by
    intro h hh
    exact ⟨List.mem_append_right _ hh, fun hx => hd h hx ((mem_handles h _ _).1 hh).1⟩
  simp only [vertexShaderSetup]
  split_ifs
  · refine ⟨?_, by simp [Event.creates], by simp [Event.deletes]⟩
    simp only [List.cons_append, List.nil_append, handlesOk, Event.uses, Event.creates,
      Event.deletes, List.append_nil, and_true, List.not_mem_nil, false_implies, implies_true,
      true_and]
    exact ⟨key, key, key, key⟩
  · refine ⟨?_, by simp [Event.creates], by simp [Event.deletes]⟩
    simp only [List.cons_append, List.nil_append, handlesOk, Event.uses, Event.creates,
      Event.deletes, List.append_nil, and_true, List.not_mem_nil, false_implies, implies_true,
      true_and]
    exact ⟨key, key, key⟩

theorem handles_kind {h : Handle} {k : Kind} {values : List Nat} (hh : h ∈ handles k values) :
    h.1 = k :=
  ((mem_handles h k values).1 hh).1

/-- Handles of two values that are equal only when zero are disjoint. -/
theorem handles_disjoint (k : Kind) (a b : Nat) (hab : a = b → a = 0) :
    ∀ h ∈ handles k [b], h ∉ handles k [a] := by
  intro h hb ha
  obtain ⟨_, hb0, hb1⟩ := (mem_handles h k [b]).1 hb
  obtain ⟨_, _, ha1⟩ := (mem_handles h k [a]).1 ha
  simp only [List.mem_singleton] at hb1 ha1
  have : a = 0 := hab (ha1.symm.trans hb1)
  omega

/-- The first of two stored names is among the names stored. -/
theorem handles_first (k : Kind) (a b : Nat) :
    ∀ h ∈ handles k [a], h ∈ handles k [a, b] := by
  intro h hh
  obtain ⟨x, y, z⟩ := (mem_handles h _ _).1 hh
  simp only [List.mem_singleton] at z
  exact (mem_handles h _ _).2 ⟨x, y, by simp [z]⟩

theorem handles_fragmentShaderSetup (env : Env) (created deleted : List Handle)
    (hd : ∀ h ∈ deleted, h.1 ≠ Kind.shader) :
    handlesOk created deleted (fragmentShaderSetup env) ∧
    (fragmentShaderSetup env).flatMap Event.creates =
      handles Kind.shader [env.createFragmentShader] ++
        handles Kind.shader [env.createFragmentShader2] ∧
    (fragmentShaderSetup env).flatMap Event.deletes = [] := by
  have k1 : ∀ h ∈ handles Kind.shader [env.createFragmentShader],
      h ∈ (created ++ handles Kind.shader [env.createFragmentShader]) ++
        handles Kind.shader [env.createFragmentShader2] ∧ h ∉ deleted := by
    intro h hh
    exact ⟨List.mem_append_left _ (List.mem_append_right _ hh),
      fun hx => hd h hx (handles_kind hh)⟩
  have k2 : ∀ h ∈ handles Kind.shader [env.createFragmentShader2],
      h ∈ (created ++ handles Kind.shader [env.createFragmentShader]) ++
        handles Kind.shader [env.createFragmentShader2] ∧ h ∉ deleted := by
    intro h hh
    exact ⟨List.mem_append_right _ hh, fun hx => hd h hx (handles_kind hh)⟩
  simp only [fragmentShaderSetup]
  split_ifs
  all_goals refine ⟨?_, by simp [Event.creates], by simp [Event.deletes]⟩
  all_goals simp only [List.cons_append, List.nil_append, handlesOk, Event.uses, Event.creates,
      Event.deletes, List.append_nil, and_true, List.not_mem_nil, false_implies, implies_true,
      true_and]
  · exact ⟨k1, k1, k2, k2, k1, k1, k2, k2⟩
  · exact ⟨k1, k1, k2, k2, k1, k1, k2⟩
  · exact ⟨k1, k1, k2, k2, k1, k2, k2⟩
  · exact ⟨k1, k1, k2, k2, k1, k2⟩

theorem handles_programSetup (env : Env) (created deleted : List Handle)
    (hdist : env.DistinctShaders)
    (hcv : ∀ h ∈ handles Kind.shader [env.createVertexShader], h ∈ created)
    (hcf : ∀ h ∈ handles Kind.shader [env.createFragmentShader], h ∈ created)
    (hcg : ∀ h ∈ handles Kind.shader [env.createFragmentShader2], h ∈ created)
    (hd : ∀ h ∈ deleted, h.1 ≠ Kind.shader ∧ h.1 ≠ Kind.program) :
    handlesOk created deleted (programSetup env) ∧
    (programSetup env).flatMap Event.creates =
      handles Kind.program [env.createProgram] ++ handles Kind.program [env.createProgram2] ∧
    (programSetup env).flatMap Event.deletes =
      handles Kind.shader [env.createVertexShader] ++
        (handles Kind.shader [env.createFragmentShader] ++
          handles Kind.shader [env.createFragmentShader2]) := by
  obtain ⟨d1, d2, d3⟩ := hdist
  have nd : ∀ (k : Kind) (v : Nat), (k = Kind.shader ∨ k = Kind.program) →
      ∀ h ∈ handles k [v], h ∉ deleted := by
    intro k v hk h hh hx
    have := handles_kind hh
    rcases hk with rfl | rfl
    · exact (hd h hx).1 this
    · exact (hd h hx).2 this
  have np : ∀ (v : Nat) (l : List Nat), ∀ h ∈ handles Kind.program [v],
      h ∉ handles Kind.shader l := by
    intro v l h hh hx
    have a := handles_kind hh
    have b := handles_kind hx
    rw [a] at b
    exact absurd b (by decide)
  have p1 : ∀ h ∈ handles Kind.program [env.createProgram],
      h ∈ (created ++ handles Kind.program [env.createProgram]) ++
        handles Kind.program [env.createProgram2] :=
    fun h hh => List.mem_append_left _ (List.mem_append_right _ hh)
  have p2 : ∀ h ∈ handles Kind.program [env.createProgram2],
      h ∈ (created ++ handles Kind.program [env.createProgram]) ++
        handles Kind.program [env.createProgram2] :=
    fun h hh => List.mem_append_right _ hh
  have cv : ∀ h ∈ handles Kind.shader [env.createVertexShader],
      h ∈ (created ++ handles Kind.program [env.createProgram]) ++
        handles Kind.program [env.createProgram2] :=
    fun h hh => List.mem_append_left _ (List.mem_append_left _ (hcv h hh))
  have cf : ∀ h ∈ handles Kind.shader [env.createFragmentShader],
      h ∈ (created ++ handles Kind.program [env.createProgram]) ++
        handles Kind.program [env.createProgram2] :=
    fun h hh => List.mem_append_left _ (List.mem_append_left _ (hcf h hh))
  have cg : ∀ h ∈ handles Kind.shader [env.createFragmentShader2],
      h ∈ (created ++ handles Kind.program [env.createProgram]) ++
        handles Kind.program [env.createProgram2] :=
    fun h hh => List.mem_append_left _ (List.mem_append_left _ (hcg h hh))
  have kp1 := fun h hh => And.intro (p1 h hh) (nd _ _ (Or.inr rfl) h hh)
  have kp2 := fun h hh => And.intro (p2 h hh) (nd _ _ (Or.inr rfl) h hh)
  have kv := fun h hh => And.intro (cv h hh) (nd _ _ (Or.inl rfl) h hh)
  have kf := fun h hh => And.intro (cf h hh) (nd _ _ (Or.inl rfl) h hh)
  have kg := fun h hh => And.intro (cg h hh) (nd _ _ (Or.inl rfl) h hh)
  have a1v : ∀ h ∈ handles Kind.program [env.createProgram] ++
      handles Kind.shader [env.createVertexShader], _ :=
    fun h hh => (List.mem_append.1 hh).elim (kp1 h) (kv h)
  have a1f : ∀ h ∈ handles Kind.program [env.createProgram] ++
      handles Kind.shader [env.createFragmentShader], _ :=
    fun h hh => (List.mem_append.1 hh).elim (kp1 h) (kf h)
  have a2v : ∀ h ∈ handles Kind.program [env.createProgram2] ++
      handles Kind.shader [env.createVertexShader], _ :=
    fun h hh => (List.mem_append.1 hh).elim (kp2 h) (kv h)
  have a2g : ∀ h ∈ handles Kind.program [env.createProgram2] ++
      handles Kind.shader [env.createFragmentShader2], _ :=
    fun h hh => (List.mem_append.1 hh).elim (kp2 h) (kg h)
  -- after the deletions
  have df : ∀ h ∈ handles Kind.shader [env.createFragmentShader],
      h ∈ (created ++ handles Kind.program [env.createProgram]) ++
        handles Kind.program [env.createProgram2] ∧
      h ∉ deleted ++ handles Kind.shader [env.createVertexShader] := by
    intro h hh
    refine ⟨cf h hh, fun hx => ?_⟩
    rcases List.mem_append.1 hx with hx | hx
    · exact nd _ _ (Or.inl rfl) h hh hx
    · exact handles_disjoint _ _ _ d1 h hh hx
  have dg : ∀ h ∈ handles Kind.shader [env.createFragmentShader2],
      h ∈ (created ++ handles Kind.program [env.createProgram]) ++
        handles Kind.program [env.createProgram2] ∧
      h ∉ (deleted ++ handles Kind.shader [env.createVertexShader]) ++
        handles Kind.shader [env.createFragmentShader] := by
    intro h hh
    refine ⟨cg h hh, fun hx => ?_⟩
    rcases List.mem_append.1 hx with hx | hx
    · rcases List.mem_append.1 hx with hx | hx
      · exact nd _ _ (Or.inl rfl) h hh hx
      · exact handles_disjoint _ _ _ d2 h hh hx
    · exact handles_disjoint _ _ _ d3 h hh hx
  have up : ∀ v, (∀ h ∈ handles Kind.program [v],
        h ∈ (created ++ handles Kind.program [env.createProgram]) ++
          handles Kind.program [env.createProgram2]) →
      ∀ h ∈ handles Kind.program [v],
        h ∈ (created ++ handles Kind.program [env.createProgram]) ++
          handles Kind.program [env.createProgram2] ∧
        h ∉ ((deleted ++ handles Kind.shader [env.createVertexShader]) ++
          handles Kind.shader [env.createFragmentShader]) ++
          handles Kind.shader [env.createFragmentShader2] := by
    intro v hv h hh
    refine ⟨hv h hh, fun hx => ?_⟩
    rcases List.mem_append.1 hx with hx | hx
    · rcases List.mem_append.1 hx with hx | hx
      · rcases List.mem_append.1 hx with hx | hx
        · exact nd _ _ (Or.inr rfl) h hh hx
        · exact np _ _ h hh hx
      · exact np _ _ h hh hx
    · exact np _ _ h hh hx
  simp only [programSetup]
  split_ifs
  all_goals refine ⟨?_, by simp [Event.creates], by simp [Event.deletes]⟩
  all_goals simp only [List.cons_append, List.nil_append, handlesOk, Event.uses, Event.creates,
      Event.deletes, List.append_nil, and_true, List.not_mem_nil, false_implies, implies_true,
      true_and]
  · exact ⟨a1v, a1f, a2v, a2g, kp1, kp2, kp1, kp1, kp2, kp2, kv, df, dg, up _ p1, up _ p2⟩
  · exact ⟨a1v, a1f, a2v, a2g, kp1, kp2, kp1, kp1, kp2, kv, df, dg, up _ p1, up _ p2⟩
  · exact ⟨a1v, a1f, a2v, a2g, kp1, kp2, kp1, kp2, kp2, kv, df, dg, up _ p1, up _ p2⟩
  · exact ⟨a1v, a1f, a2v, a2g, kp1, kp2, kp1, kp2, kv, df, dg, up _ p1, up _ p2⟩
theorem handles_vertexArraySetup (env : Env) (created deleted : List Handle)
    (hcb : ∀ h ∈ handles Kind.buffer [env.genBuffers2.1], h ∈ created)
    (hd : ∀ h ∈ deleted, h.1 = Kind.shader) :
    handlesOk created deleted (vertexArraySetup env) ∧
    (vertexArraySetup env).flatMap Event.creates =
      handles Kind.vertexArray [env.genVertexArrays1] ++
        handles Kind.vertexArray [env.genVertexArrays2.1, env.genVertexArrays2.2] ∧
    (vertexArraySetup env).flatMap Event.deletes = [] := by
  have nd : ∀ (k : Kind) (v : Nat), k ≠ Kind.shader → ∀ h ∈ handles k [v], h ∉ deleted := by
    intro k v hk h hh hx
    exact hk ((handles_kind hh).symm.trans (hd h hx))
  have k1 : ∀ h ∈ handles Kind.vertexArray [env.VAO1],
      h ∈ (created ++ handles Kind.vertexArray [env.genVertexArrays1]) ++
        handles Kind.vertexArray [env.genVertexArrays2.1, env.genVertexArrays2.2] ∧
      h ∉ deleted := by
    intro h hh
    refine ⟨?_, nd _ _ (by decide) h hh⟩
    rcases List.mem_append.1 (handles_VAO1 env h hh) with h1 | h1
    · exact List.mem_append_left _ (List.mem_append_right _ h1)
    · exact List.mem_append_right _ h1
  have k2 : ∀ h ∈ handles Kind.vertexArray [env.genVertexArrays2.1],
      h ∈ (created ++ handles Kind.vertexArray [env.genVertexArrays1]) ++
        handles Kind.vertexArray [env.genVertexArrays2.1, env.genVertexArrays2.2] ∧
      h ∉ deleted := by
    intro h hh
    exact ⟨List.mem_append_right _ (handles_first _ _ _ h hh), nd _ _ (by decide) h hh⟩
  have kb : ∀ h ∈ handles Kind.buffer [env.genBuffers2.1],
      h ∈ (created ++ handles Kind.vertexArray [env.genVertexArrays1]) ++
        handles Kind.vertexArray [env.genVertexArrays2.1, env.genVertexArrays2.2] ∧
      h ∉ deleted :=
    fun h hh => ⟨List.mem_append_left _ (List.mem_append_left _ (hcb h hh)),
      nd _ _ (by decide) h hh⟩
  refine ⟨?_, by simp [vertexArraySetup, Event.creates], by simp [vertexArraySetup, Event.deletes]⟩
  simp only [vertexArraySetup, handlesOk, Event.uses, Event.creates,
      Event.deletes, List.append_nil, and_true, List.not_mem_nil, false_implies, implies_true,
      true_and]
  exact ⟨k1, k2, kb⟩

theorem handles_loop (env : Env) (created deleted : List Handle) (fuel i : Nat)
    (hwin : env.glfwCreateWindow ≠ 0)
    (hw : ∀ h ∈ handles Kind.window [env.glfwCreateWindow], h ∈ created)
    (hp1 : ∀ h ∈ handles Kind.program [env.createProgram], h ∈ created)
    (hp2 : ∀ h ∈ handles Kind.program [env.createProgram2], h ∈ created)
    (ha1 : ∀ h ∈ handles Kind.vertexArray [env.VAO1], h ∈ created)
    (ha2 : ∀ h ∈ handles Kind.vertexArray [env.genVertexArrays2.1], h ∈ created)
    (hd : ∀ h ∈ deleted, h.1 = Kind.shader) :
    handlesOk created deleted (renderLoop env [env.glfwCreateWindow] fuel i).1 ∧
    (renderLoop env [env.glfwCreateWindow] fuel i).1.flatMap Event.creates = [] ∧
    (renderLoop env [env.glfwCreateWindow] fuel i).1.flatMap Event.deletes = [] := by
  have nd : ∀ (k : Kind) (v : Nat), k ≠ Kind.shader → ∀ h ∈ handles k [v], h ∉ deleted := by
    intro k v hk h hh hx
    exact hk ((handles_kind hh).symm.trans (hd h hx))
  have kw := fun h hh => And.intro (hw h hh) (nd _ _ (by decide) h hh)
  have kp1 := fun h hh => And.intro (hp1 h hh) (nd _ _ (by decide) h hh)
  have kp2 := fun h hh => And.intro (hp2 h hh) (nd _ _ (by decide) h hh)
  have ka1 := fun h hh => And.intro (ha1 h hh) (nd _ _ (by decide) h hh)
  have ka2 := fun h hh => And.intro (ha2 h hh) (nd _ _ (by decide) h hh)
  apply handlesOk_of_forall
  apply renderLoop_forall
  intro j e he
  rcases mem_loopBody_single env _ j hwin e he with h | h | h
  · subst h; exact ⟨rfl, rfl, kw⟩
  · subst h; exact ⟨rfl, rfl, kw⟩
  · simp only [render, List.mem_cons, List.mem_singleton, List.not_mem_nil, or_false] at h
    rcases h with h | h | h | h | h | h | h | h | h | h | h | h <;> subst h <;>
      first
      | exact ⟨rfl, rfl, fun _ hx => absurd hx (List.not_mem_nil _)⟩
      | exact ⟨rfl, rfl, kp1⟩
      | exact ⟨rfl, rfl, kp2⟩
      | exact ⟨rfl, rfl, ka1⟩
      | exact ⟨rfl, rfl, ka2⟩
      | exact ⟨rfl, rfl, kw⟩

theorem handlesOk_main (env : Env) (fuel : Nat) (hdist : env.DistinctShaders) :
    handlesOk [] [] (main env fuel).trace := by
  obtain hinit | hinit := Bool.eq_false_or_eq_true env.glfwInit |>.symm
  · have e : main env fuel = ⟨[Event.glfwInit false], some ExitStatus.EXIT_FAILURE⟩ := by
      simp [main, hinit]
    rw [e]
    simp [handlesOk, Event.uses]
  · by_cases hwin : env.glfwCreateWindow = 0
    · have e : main env fuel
          = ⟨windowSetup env 0 ++ [Event.glfwTerminate], some ExitStatus.EXIT_FAILURE⟩ := by
        simp [main, hinit, hwin]
      rw [e]
      simp [windowSetup, handlesOk, Event.uses, Event.creates, Event.deletes, hwin, handles]
    · obtain ⟨w1, w2, w3⟩ := handles_window_setup env
      have nil_d : ∀ (P : Handle → Prop), ∀ h ∈ ([] : List Handle), P h :=
        fun _ _ hx => absurd hx (List.not_mem_nil _)
      obtain ⟨b1, b2, b3⟩ := handles_bufferSetup env
        (handles Kind.window [env.glfwCreateWindow]) [] (nil_d _)
      obtain ⟨v1, v2, v3⟩ := handles_vertexShaderSetup env
        (handles Kind.window [env.glfwCreateWindow] ++
          (handles Kind.buffer [env.genBuffers1] ++
            handles Kind.buffer [env.genBuffers2.1, env.genBuffers2.2])) [] (nil_d _)
      obtain ⟨f1, f2, f3⟩ := handles_fragmentShaderSetup env
        (handles Kind.window [env.glfwCreateWindow] ++
          (handles Kind.buffer [env.genBuffers1] ++
            handles Kind.buffer [env.genBuffers2.1, env.genBuffers2.2]) ++
          handles Kind.shader [env.createVertexShader]) [] (nil_d _)
      obtain ⟨p1, p2, p3⟩ := handles_programSetup env
        (handles Kind.window [env.glfwCreateWindow] ++
          (handles Kind.buffer [env.genBuffers1] ++
            handles Kind.buffer [env.genBuffers2.1, env.genBuffers2.2]) ++
          handles Kind.shader [env.createVertexShader] ++
          (handles Kind.shader [env.createFragmentShader] ++
            handles Kind.shader [env.createFragmentShader2])) [] hdist
        (fun h hh => List.mem_append_left _ (List.mem_append_right _ hh))
        (fun h hh => List.mem_append_right _ (List.mem_append_left _ hh))
        (fun h hh => List.mem_append_right _ (List.mem_append_right _ hh))
        (nil_d _)
      have hdel : ∀ h ∈ handles Kind.shader [env.createVertexShader] ++
          (handles Kind.shader [env.createFragmentShader] ++
            handles Kind.shader [env.createFragmentShader2]), h.1 = Kind.shader := by
        intro h hh
        rcases List.mem_append.1 hh with hh | hh
        · exact handles_kind hh
        · rcases List.mem_append.1 hh with hh | hh
          · exact handles_kind hh
          · exact handles_kind hh
      have hb2 := handles_first Kind.buffer env.genBuffers2.1 env.genBuffers2.2
      have ha2 := handles_first Kind.vertexArray env.genVertexArrays2.1 env.genVertexArrays2.2
      obtain ⟨a1, a2, a3⟩ := handles_vertexArraySetup env
        (handles Kind.window [env.glfwCreateWindow] ++
          (handles Kind.buffer [env.genBuffers1] ++
            handles Kind.buffer [env.genBuffers2.1, env.genBuffers2.2]) ++
          handles Kind.shader [env.createVertexShader] ++
          (handles Kind.shader [env.createFragmentShader] ++
            handles Kind.shader [env.createFragmentShader2]) ++
          (handles Kind.program [env.createProgram] ++
            handles Kind.program [env.createProgram2]))
        (handles Kind.shader [env.createVertexShader] ++
          (handles Kind.shader [env.createFragmentShader] ++
            handles Kind.shader [env.createFragmentShader2]))
        (fun h hh => by
          simp only [List.mem_append]
          exact Or.inl (Or.inl (Or.inl (Or.inr (Or.inr (hb2 h hh))))))
        hdel
      obtain ⟨l1, l2, l3⟩ := handles_loop env
        (handles Kind.window [env.glfwCreateWindow] ++
          (handles Kind.buffer [env.genBuffers1] ++
            handles Kind.buffer [env.genBuffers2.1, env.genBuffers2.2]) ++
          handles Kind.shader [env.createVertexShader] ++
          (handles Kind.shader [env.createFragmentShader] ++
            handles Kind.shader [env.createFragmentShader2]) ++
          (handles Kind.program [env.createProgram] ++
            handles Kind.program [env.createProgram2]) ++
          (handles Kind.vertexArray [env.genVertexArrays1] ++
            handles Kind.vertexArray [env.genVertexArrays2.1, env.genVertexArrays2.2]))
        (handles Kind.shader [env.createVertexShader] ++
          (handles Kind.shader [env.createFragmentShader] ++
            handles Kind.shader [env.createFragmentShader2])) fuel 0 hwin
        (fun h hh => by simp only [List.mem_append]; tauto)
        (fun h hh => by simp only [List.mem_append]; tauto)
        (fun h hh => by simp only [List.mem_append]; tauto)
        (fun h hh => List.mem_append_right _ (handles_VAO1 env h hh))
        (fun h hh => by simp only [List.mem_append]; exact Or.inr (Or.inr (ha2 h hh)))
        hdel
      have hsetup : handlesOk (handles Kind.window [env.glfwCreateWindow]) [] (setup env) ∧
          (setup env).flatMap Event.creates =
            (handles Kind.buffer [env.genBuffers1] ++
              handles Kind.buffer [env.genBuffers2.1, env.genBuffers2.2]) ++
            handles Kind.shader [env.createVertexShader] ++
            (handles Kind.shader [env.createFragmentShader] ++
              handles Kind.shader [env.createFragmentShader2]) ++
            (handles Kind.program [env.createProgram] ++
              handles Kind.program [env.createProgram2]) ++
            (handles Kind.vertexArray [env.genVertexArrays1] ++
              handles Kind.vertexArray [env.genVertexArrays2.1, env.genVertexArrays2.2]) ∧
          (setup env).flatMap Event.deletes =
            handles Kind.shader [env.createVertexShader] ++
              (handles Kind.shader [env.createFragmentShader] ++
                handles Kind.shader [env.createFragmentShader2]) := by
        simp only [setup, handlesOk_append, List.flatMap_append, b2, b3, v2, v3, f2, f3, p2, p3,
          a2, a3, List.append_nil, List.nil_append, List.append_assoc]
        simp only [List.append_assoc] at b1 v1 f1 p1 a1
        exact ⟨⟨b1, v1, f1, p1, a1⟩, trivial, trivial⟩
      obtain ⟨s1, s2, s3⟩ := hsetup
      have hshut : ∀ created : List Handle,
          (∀ h ∈ handles Kind.window [env.glfwCreateWindow], h ∈ created) →
          handlesOk created (handles Kind.shader [env.createVertexShader] ++
            (handles Kind.shader [env.createFragmentShader] ++
              handles Kind.shader [env.createFragmentShader2]))
            (shutdown [env.glfwCreateWindow]) := by
        intro created hc
        simp only [shutdown, List.map_cons, List.map_nil, List.cons_append, List.nil_append,
          handlesOk, Event.uses, and_true, List.not_mem_nil, false_implies, implies_true]
        intro h hh
        exact ⟨hc h hh, fun hx => absurd ((handles_kind hh).symm.trans (hdel h hx)) (by decide)⟩
      rw [main_running env fuel hinit hwin]
      generalize windowSetup env 0 ++
        [Event.glfwSetKeyCallback env.glfwCreateWindow, Event.glfwSwapInterval 1] = pre
        at w1 w2 w3 ⊢
      split
      · simp only [handlesOk_append, List.flatMap_append, w2, w3, s2, s3, l2, l3,
          List.append_nil, List.nil_append]
        simp only [List.append_assoc] at l1 ⊢
        refine ⟨⟨⟨w1, s1⟩, l1⟩, hshut _ ?_⟩
        intro h hh
        exact List.mem_append_left _ hh
      · simp only [handlesOk_append, List.flatMap_append, w2, w3, s2, s3,
          List.append_nil, List.nil_append]
        simp only [List.append_assoc] at l1 ⊢
        exact ⟨⟨w1, s1⟩, l1⟩

/-- C10: in every run in which the driver hands out no live shader name
twice, every call that takes a window, buffer, vertex array, shader or program
handle (a non-null pointer, a nonzero name) is preceded by the call that
created that handle, and is preceded by no call that deleted or destroyed it.
It holds for the calls made up to any point of the run, so also in a run
whose render loop never ends. -/
theorem handles_created_before_use (env : Env) (fuel : Nat) (hdist : env.DistinctShaders) :
    ∀ before e after, (main env fuel).trace = before ++ e :: after →
      ∀ h ∈ e.uses, (∃ c ∈ before, h ∈ c.creates) ∧ (∀ d ∈ before, h ∉ d.deletes) := by
  intro before e after ht h hh
  obtain ⟨h1, _, h3⟩ := handlesOk_sound _ [] [] (handlesOk_main env fuel hdist) before e after ht
    h hh
  refine ⟨?_, h3⟩
  rcases h1 with h1 | h1
  · exact absurd h1 (List.not_mem_nil _)
  · exact h1

/-- C10 at a concrete run: the call `glDeleteShader (fragmentShader)` comes
after the creation of shader 2 and after no deletion of it. -/
theorem handles_created_before_use_witness :
    (∃ c ∈ (main sampleEnv 1).trace.take 38, (Kind.shader, 2) ∈ c.creates) ∧
    (∀ d ∈ (main sampleEnv 1).trace.take 38, (Kind.shader, 2) ∉ d.deletes) :=
  handles_created_before_use sampleEnv 1 (by unfold Env.DistinctShaders; decide)
    ((main sampleEnv 1).trace.take 38) (Event.glDeleteShader 2)
    ((main sampleEnv 1).trace.drop 39) (by rfl) (Kind.shader, 2) (by decide)

/-! ### The static data -/

/-- C13: `gap` is 1/8; each of the 9 coordinates of `vertices1` and each of
the 9 coordinates of `vertices2` lies in the closed range from -1 to 1; and
`vertices2` is the triangle (0.5,-0.5,0), (-0.5,-0.5,0), (-0.5,0.5,0) with
`gap` subtracted from every component, that is (0.375,-0.625,-0.125),
(-0.625,-0.625,-0.125), (-0.625,0.375,-0.125). -/
theorem vertices_in_normalized_device_coordinates :
    gap = 1 / 8 ∧
    vertices1.length = 9 ∧ vertices2.length = 9 ∧
    (∀ x ∈ vertices1, -1 ≤ x ∧ x ≤ 1) ∧
    (∀ x ∈ vertices2, -1 ≤ x ∧ x ≤ 1) ∧
    vertices2 = triangle2.map (fun x => x - gap) ∧
    vertices2 = [0.375, -0.625, -0.125, -0.625, -0.625, -0.125, -0.625, 0.375, -0.125] := by
  have hg : gap = 1 / 8 := by norm_num [gap]
  refine ⟨hg, rfl, rfl, ?_, ?_, ?_, ?_⟩
  · intro x hx
    simp only [vertices1, List.mem_cons, List.mem_singleton, List.not_mem_nil, or_false] at hx
    rcases hx with h | h | h | h | h | h | h | h | h <;> subst h <;> norm_num
  · intro x hx
    simp only [vertices2, hg, List.mem_cons, List.mem_singleton, List.not_mem_nil,
      or_false] at hx
    rcases hx with h | h | h | h | h | h | h | h | h <;> subst h <;> norm_num
  · simp [vertices2, triangle2]
  · simp only [vertices2, hg]
    norm_num

/-! ### The generating calls -/

/-- In every run that gets past initialization the generating calls are, for
buffers and for vertex arrays alike, one call for 1 name and one call for 2
names. -/
theorem gen_requests_main (env : Env) (fuel : Nat) (hinit : env.glfwInit = true)
    (hwin : env.glfwCreateWindow ≠ 0) :
    (main env fuel).trace.filterMap Event.genBuffersRequest =
      [(1, [env.genBuffers1]), (2, [env.genBuffers2.1, env.genBuffers2.2])] ∧
    (main env fuel).trace.filterMap Event.genVertexArraysRequest =
      [(1, [env.genVertexArrays1]), (2, [env.genVertexArrays2.1, env.genVertexArrays2.2])] := by
  have hs : (setup env).filterMap Event.genBuffersRequest =
        [(1, [env.genBuffers1]), (2, [env.genBuffers2.1, env.genBuffers2.2])] ∧
      (setup env).filterMap Event.genVertexArraysRequest =
        [(1, [env.genVertexArrays1]),
          (2, [env.genVertexArrays2.1, env.genVertexArrays2.2])] := by
    simp only [setup, bufferSetup, vertexShaderSetup, fragmentShaderSetup, programSetup,
      vertexArraySetup]
    split_ifs <;> exact ⟨rfl, rfl⟩
  constructor
  · rw [filterMap_main _ (by intro e h; cases e <;> first | rfl | simp [Event.inLoopBody] at h)
      (by intro e h1 h2; cases e <;> first | rfl | simp [Event.createsObject] at h1)
      env fuel hinit hwin, hs.1]
  · rw [filterMap_main _ (by intro e h; cases e <;> first | rfl | simp [Event.inLoopBody] at h)
      (by intro e h1 h2; cases e <;> first | rfl | simp [Event.createsObject] at h1)
      env fuel hinit hwin, hs.2]

/-- C12, the code at a run that gets past initialization: the second
`glGenBuffers` call and the second `glGenVertexArrays` call request 2 names,
which exceeds the one `unsigned int` at their destination, and the program
generates three buffer names and three vertex array names, not two. -/
theorem gen_calls_request_two_names :
    (main sampleEnv 1).trace.filterMap Event.genBuffersRequest
      = [(1, [1]), (2, [2, 3])] ∧
    (main sampleEnv 1).trace.filterMap Event.genVertexArraysRequest
      = [(1, [1]), (2, [2, 3])] ∧
    destinationCapacity < 2 ∧
    (((main sampleEnv 1).trace.filterMap Event.genBuffersRequest).map
      (fun r => r.2.length)).sum = 3 ∧
    (((main sampleEnv 1).trace.filterMap Event.genVertexArraysRequest).map
      (fun r => r.2.length)).sum = 3 := by
  refine ⟨rfl, rfl, by decide, rfl, rfl⟩

/-! ### Handles at exit -/

theorem deletes_kind (e : Event) (h : Handle) (hh : h ∈ e.deletes) :
    h.1 = Kind.shader ∨ h.1 = Kind.window := by
  cases e <;> simp only [Event.deletes, List.not_mem_nil] at hh
  · exact Or.inl (handles_kind hh)
  · exact Or.inr (handles_kind hh)

theorem creates_deletes_loop (env : Env) (w : Window) (hw : w ≠ 0) (fuel i : Nat) :
    (renderLoop env [w] fuel i).1.flatMap Event.creates = [] ∧
    (renderLoop env [w] fuel i).1.flatMap Event.deletes = [] := by
  have key : ∀ e ∈ (renderLoop env [w] fuel i).1, e.creates = [] ∧ e.deletes = [] := by
    intro e he
    have h := inLoopBody_loop env w hw fuel i e he
    cases e <;> first | exact ⟨rfl, rfl⟩ | simp [Event.inLoopBody] at h
  constructor
  · rw [List.eq_nil_iff_forall_not_mem]
    intro x hx
    obtain ⟨e, he, hxe⟩ := List.mem_flatMap.1 hx
    rw [(key e he).1] at hxe
    exact absurd hxe (List.not_mem_nil _)
  · rw [List.eq_nil_iff_forall_not_mem]
    intro x hx
    obtain ⟨e, he, hxe⟩ := List.mem_flatMap.1 hx
    rw [(key e he).2] at hxe
    exact absurd hxe (List.not_mem_nil _)

theorem creates_deletes_setup (env : Env) :
    (setup env).flatMap Event.creates =
      (handles Kind.buffer [env.genBuffers1] ++
        handles Kind.buffer [env.genBuffers2.1, env.genBuffers2.2]) ++
      handles Kind.shader [env.createVertexShader] ++
      (handles Kind.shader [env.createFragmentShader] ++
        handles Kind.shader [env.createFragmentShader2]) ++
      (handles Kind.program [env.createProgram] ++
        handles Kind.program [env.createProgram2]) ++
      (handles Kind.vertexArray [env.genVertexArrays1] ++
        handles Kind.vertexArray [env.genVertexArrays2.1, env.genVertexArrays2.2]) ∧
    (setup env).flatMap Event.deletes =
      handles Kind.shader [env.createVertexShader] ++
        (handles Kind.shader [env.createFragmentShader] ++
          handles Kind.shader [env.createFragmentShader2]) := by
  have nil_d : ∀ (P : Handle → Prop), ∀ h ∈ ([] : List Handle), P h :=
    fun _ _ hx => absurd hx (List.not_mem_nil _)
  obtain ⟨_, b2, b3⟩ := handles_bufferSetup env [] [] (nil_d _)
  obtain ⟨_, v2, v3⟩ := handles_vertexShaderSetup env [] [] (nil_d _)
  obtain ⟨_, f2, f3⟩ := handles_fragmentShaderSetup env [] [] (nil_d _)
  have p2 : (programSetup env).flatMap Event.creates =
      handles Kind.program [env.createProgram] ++ handles Kind.program [env.createProgram2] := by
    simp only [programSetup]
    split_ifs <;> simp [Event.creates]
  have p3 : (programSetup env).flatMap Event.deletes =
      handles Kind.shader [env.createVertexShader] ++
        (handles Kind.shader [env.createFragmentShader] ++
          handles Kind.shader [env.createFragmentShader2]) := by
    simp only [programSetup]
    split_ifs <;> simp [Event.deletes]
  have a2 : (vertexArraySetup env).flatMap Event.creates =
      handles Kind.vertexArray [env.genVertexArrays1] ++
        handles Kind.vertexArray [env.genVertexArrays2.1, env.genVertexArrays2.2] := by
    simp [vertexArraySetup, Event.creates]
  have a3 : (vertexArraySetup env).flatMap Event.deletes = [] := by
    simp [vertexArraySetup, Event.deletes]
  simp only [setup, List.flatMap_append, b2, b3, v2, v3, f2, f3, p2, p3, a2, a3,
    List.append_nil, List.nil_append]
  exact ⟨trivial, trivial⟩

/-- A run that exits with `EXIT_SUCCESS` got past initialization and its render
loop has ended. -/
theorem exit_success (env : Env) (fuel : Nat)
    (hexit : (main env fuel).exit = some ExitStatus.EXIT_SUCCESS) :
    env.glfwInit = true ∧ env.glfwCreateWindow ≠ 0 ∧
      (renderLoop env [env.glfwCreateWindow] fuel 0).2 = true := by
  obtain hinit | hinit := Bool.eq_false_or_eq_true env.glfwInit |>.symm
  · have e : main env fuel = ⟨[Event.glfwInit false], some ExitStatus.EXIT_FAILURE⟩ := by
      simp [main, hinit]
    rw [e] at hexit
    simp at hexit
  · by_cases hwin : env.glfwCreateWindow = 0
    · have e : main env fuel
          = ⟨windowSetup env 0 ++ [Event.glfwTerminate], some ExitStatus.EXIT_FAILURE⟩ := by
        simp [main, hinit, hwin]
      rw [e] at hexit
      simp at hexit
    · refine ⟨hinit, hwin, ?_⟩
      rw [main_running env fuel hinit hwin] at hexit
      cases hl : (renderLoop env [env.glfwCreateWindow] fuel 0).2
      · simp [hl] at hexit
      · rfl

/-- The handles created and the handles deleted in a run that exits with
`EXIT_SUCCESS`. -/
theorem creates_deletes_main (env : Env) (fuel : Nat)
    (hexit : (main env fuel).exit = some ExitStatus.EXIT_SUCCESS) :
    (main env fuel).trace.flatMap Event.creates =
      handles Kind.window [env.glfwCreateWindow] ++ (setup env).flatMap Event.creates ∧
    (main env fuel).trace.flatMap Event.deletes =
      (setup env).flatMap Event.deletes ++ handles Kind.window [env.glfwCreateWindow] := by
  obtain ⟨hinit, hwin, hend⟩ := exit_success env fuel hexit
  obtain ⟨w1, w2, w3⟩ := handles_window_setup env
  obtain ⟨l2, l3⟩ := creates_deletes_loop env _ hwin fuel 0
  have s2 : (shutdown [env.glfwCreateWindow]).flatMap Event.creates = [] := by
    simp [shutdown, Event.creates]
  have s3 : (shutdown [env.glfwCreateWindow]).flatMap Event.deletes
      = handles Kind.window [env.glfwCreateWindow] := by
    simp [shutdown, Event.deletes]
  rw [main_running env fuel hinit hwin, hend]
  generalize windowSetup env 0 ++
    [Event.glfwSetKeyCallback env.glfwCreateWindow, Event.glfwSwapInterval 1] = pre
    at w1 w2 w3 ⊢
  simp only [if_true, List.flatMap_append, w2, w3, l2, l3, s2, s3, List.append_nil,
    List.nil_append]
  exact ⟨trivial, trivial⟩

/-- C11, as amended: in every run that exits with `EXIT_SUCCESS`, every shader
and every window the program created has been passed to `glDeleteShader` or
`glfwDestroyWindow`; and no call of the run deletes a buffer, a vertex array or
a program (the program calls none of `glDeleteBuffers`,
`glDeleteVertexArrays`, `glDeleteProgram`). -/
theorem shaders_and_windows_destroyed_at_exit (env : Env) (fuel : Nat)
    (hexit : (main env fuel).exit = some ExitStatus.EXIT_SUCCESS) :
    (∀ h : Handle, (h.1 = Kind.shader ∨ h.1 = Kind.window) →
      (∃ c ∈ (main env fuel).trace, h ∈ c.creates) →
      ∃ d ∈ (main env fuel).trace, h ∈ d.deletes) ∧
    (∀ h : Handle, (h.1 = Kind.buffer ∨ h.1 = Kind.vertexArray ∨ h.1 = Kind.program) →
      ∀ d ∈ (main env fuel).trace, h ∉ d.deletes) := by
  obtain ⟨c1, c2⟩ := creates_deletes_main env fuel hexit
  obtain ⟨s1, s2⟩ := creates_deletes_setup env
  constructor
  · intro h hk hc
    have hc2 : h ∈ (main env fuel).trace.flatMap Event.creates := List.mem_flatMap.2 hc
    have goal : h ∈ (main env fuel).trace.flatMap Event.deletes := by
      rw [c2, s2]
      rw [c1, s1] at hc2
      simp only [List.mem_append] at hc2 ⊢
      have no : ∀ {k : Kind} {l : List Nat}, h ∈ handles k l → k ≠ Kind.shader →
          k ≠ Kind.window → False := by
        intro k l hm h1 h2
        have := handles_kind hm
        rcases hk with hk | hk
        · exact h1 (this.symm.trans hk)
        · exact h2 (this.symm.trans hk)
      rcases hc2 with hw | ((((hb | hb) | hv) | (hf | hg)) | (hp | hp)) | (ha | ha)
      · exact Or.inr hw
      · exact (no hb (by decide) (by decide)).elim
      · exact (no hb (by decide) (by decide)).elim
      · exact Or.inl (Or.inl hv)
      · exact Or.inl (Or.inr (Or.inl hf))
      · exact Or.inl (Or.inr (Or.inr hg))
      · exact (no hp (by decide) (by decide)).elim
      · exact (no hp (by decide) (by decide)).elim
      · exact (no ha (by decide) (by decide)).elim
      · exact (no ha (by decide) (by decide)).elim
    exact List.mem_flatMap.1 goal
  · intro h hk d _ hd
    rcases deletes_kind d h hd with h1 | h1 <;> rw [h1] at hk <;> simp at hk

/-- C11 as amended, at a concrete run: shader 1 is deleted, buffer 1 is not. -/
theorem shaders_and_windows_destroyed_at_exit_witness :
    (∃ d ∈ (main sampleEnv 3).trace, (Kind.shader, 1) ∈ d.deletes) ∧
    (∀ d ∈ (main sampleEnv 3).trace, (Kind.buffer, 1) ∉ d.deletes) :=
  ⟨(shaders_and_windows_destroyed_at_exit sampleEnv 3 rfl).1 (Kind.shader, 1) (Or.inl rfl)
      ⟨Event.glCreateShader GLenum.GL_VERTEX_SHADER 1, by decide, by decide⟩,
   (shaders_and_windows_destroyed_at_exit sampleEnv 3 rfl).2 (Kind.buffer, 1) (Or.inl rfl)⟩

/-- C11 as stated fails: this run exits with `EXIT_SUCCESS`, it created buffer
1, vertex array 1 and program 4, and none of its calls deletes any of them. -/
theorem all_handles_destroyed_counterexample :
    (main sampleEnv 3).exit = some ExitStatus.EXIT_SUCCESS ∧
    (∃ c ∈ (main sampleEnv 3).trace, (Kind.buffer, 1) ∈ c.creates) ∧
    (∃ c ∈ (main sampleEnv 3).trace, (Kind.vertexArray, 1) ∈ c.creates) ∧
    (∃ c ∈ (main sampleEnv 3).trace, (Kind.program, 4) ∈ c.creates) ∧
    (∀ d ∈ (main sampleEnv 3).trace,
      (Kind.buffer, 1) ∉ d.deletes ∧ (Kind.vertexArray, 1) ∉ d.deletes ∧
        (Kind.program, 4) ∉ d.deletes) := by
  refine ⟨rfl, ⟨Event.glGenBuffers 1 [1], by decide, by decide⟩,
    ⟨Event.glGenVertexArrays 1 [1], by decide, by decide⟩,
    ⟨Event.glCreateProgram 4, by decide, by decide⟩, ?_⟩
  intro d _
  refine ⟨fun hd => ?_, fun hd => ?_, fun hd => ?_⟩ <;>
    rcases deletes_kind d _ hd with h1 | h1 <;> simp at h1

/-! ### The close flag -/

theorem windowCheck_fst (sc : Window → Bool) (acc : List Event × Bool) (w : Window) :
    (windowCheck sc acc w).1 = acc.1 ++ windowCheckCalls sc w := by
  simp only [windowCheck, windowCheckCalls]
  split_ifs <;> simp

/-- The calls of the whole `std::for_each` are those of the lambda on each
window in turn. -/
theorem closeCheck_calls (sc : Window → Bool) (window : List Window) :
    (closeCheck sc window).1 = window.flatMap (windowCheckCalls sc) := by
  have key : ∀ (l : List Window) (acc : List Event × Bool),
      (l.foldl (windowCheck sc) acc).1 = acc.1 ++ l.flatMap (windowCheckCalls sc) := by
    intro l
    induction l with
    | nil => intro acc; simp
    | cons w l ih =>
      intro acc
      rw [List.foldl_cons, ih, windowCheck_fst, List.flatMap_cons, List.append_assoc]
  simpa [closeCheck] using key window ([], true)

/-- The lambda calls `glfwSetWindowShouldClose` only on its own window, only
with `GLFW_TRUE`, and only when `glfwWindowShouldClose` answered true. -/
theorem mem_windowCheckCalls (sc : Window → Bool) (theWindow w : Window) (v : Int)
    (h : Event.glfwSetWindowShouldClose w v ∈ windowCheckCalls sc theWindow) :
    w = theWindow ∧ v = GLFW_TRUE ∧ sc w = true := by
  simp only [windowCheckCalls, windowCheck] at h
  split_ifs at h with h0 h1
  · simp at h
  · simp only [List.nil_append, List.mem_cons, List.mem_singleton, List.not_mem_nil,
      or_false, reduceCtorEq, false_or, Event.glfwSetWindowShouldClose.injEq] at h
    obtain ⟨rfl, rfl⟩ := h
    exact ⟨rfl, rfl, h1⟩
  · simp at h

theorem closeFlagsAfter_append (flags : CloseFlags) (a b : List Event) :
    closeFlagsAfter flags (a ++ b) = closeFlagsAfter (closeFlagsAfter flags a) b := by
  simp [closeFlagsAfter]

theorem answersAgree_append (a b : List Event) :
    ∀ flags, answersAgree flags (a ++ b) ↔
      answersAgree flags a ∧ answersAgree (closeFlagsAfter flags a) b := by
  induction a with
  | nil => intro flags; simp [answersAgree, closeFlagsAfter]
  | cons e a ih =>
    intro flags
    simp only [List.cons_append]
    show (_ ∧ answersAgree _ (a ++ b)) ↔ ((_ ∧ answersAgree _ a) ∧ _)
    rw [ih, and_assoc]
    rfl

/-- Setting a flag that is set changes no flag. -/
theorem closeFlagsStep_set (flags : CloseFlags) (w : Window) (h : flags w = true) :
    closeFlagsStep flags (Event.glfwSetWindowShouldClose w GLFW_TRUE) = flags := by
  funext x
  simp only [closeFlagsStep, GLFW_TRUE]
  split_ifs with hx
  · rw [hx, h]; decide
  · rfl

/-- The lambda, answered from the flags, agrees with them and leaves them as
they were. -/
theorem windowCheckCalls_flags (flags : CloseFlags) (w : Window) :
    answersAgree flags (windowCheckCalls flags w) ∧
    closeFlagsAfter flags (windowCheckCalls flags w) = flags := by
  simp only [windowCheckCalls, windowCheck]
  split_ifs with h0 h1
  · exact ⟨trivial, rfl⟩
  · have hs := closeFlagsStep_set flags w h1
    refine ⟨⟨h1.symm, trivial, trivial⟩, ?_⟩
    simp only [List.nil_append, closeFlagsAfter, List.foldl_cons, List.foldl_nil]
    exact hs
  · refine ⟨⟨?_, trivial⟩, rfl⟩
    show false = flags w
    simpa using h1

theorem closeCheck_flags (flags : CloseFlags) (window : List Window) :
    answersAgree flags (closeCheck flags window).1 ∧
    closeFlagsAfter flags (closeCheck flags window).1 = flags := by
  rw [closeCheck_calls]
  induction window with
  | nil => exact ⟨trivial, rfl⟩
  | cons w l ih =>
    obtain ⟨h1, h2⟩ := windowCheckCalls_flags flags w
    rw [List.flatMap_cons, answersAgree_append, closeFlagsAfter_append, h2]
    exact ⟨⟨h1, ih.1⟩, ih.2⟩

/-- A call that passes `GLFW_TRUE` whenever it sets a close flag keeps a set
flag set. -/
theorem closeFlagsStep_keeps (flags : CloseFlags) (e : Event) (w : Window)
    (he : ∀ w2 v, e = Event.glfwSetWindowShouldClose w2 v → v = GLFW_TRUE)
    (h : flags w = true) : closeFlagsStep flags e w = true := by
  cases e <;> try exact h
  case glfwSetWindowShouldClose w2 v =>
    have hv := he w2 v rfl
    simp only [closeFlagsStep, hv, GLFW_TRUE]
    split_ifs
    · decide
    · exact h

theorem closeFlagsAfter_keeps (t : List Event) :
    ∀ (flags : CloseFlags) (w : Window),
      (∀ w2 v, Event.glfwSetWindowShouldClose w2 v ∈ t → v = GLFW_TRUE) →
      flags w = true → closeFlagsAfter flags t w = true := by
  induction t with
  | nil => intro flags w _ h; exact h
  | cons e t ih =>
    intro flags w ht h
    simp only [closeFlagsAfter, List.foldl_cons]
    exact ih (closeFlagsStep flags e) w
      (fun w2 v hm => ht w2 v (List.mem_cons_of_mem _ hm))
      (closeFlagsStep_keeps flags e w
        (fun w2 v he => ht w2 v (he ▸ List.mem_cons_self _ _)) h)

/-- Every `glfwSetWindowShouldClose` call of a run is made by the per-window
check of some iteration, on the window of `main`, with `GLFW_TRUE`, after
`glfwWindowShouldClose` answered true in that iteration. -/
theorem set_in_main (env : Env) (fuel : Nat) (w : Window) (v : Int)
    (h : Event.glfwSetWindowShouldClose w v ∈ (main env fuel).trace) :
    v = GLFW_TRUE ∧ w = env.glfwCreateWindow ∧ ∃ i, env.shouldClose i w = true := by
  obtain hinit | hinit := Bool.eq_false_or_eq_true env.glfwInit |>.symm
  · have e : main env fuel = ⟨[Event.glfwInit false], some ExitStatus.EXIT_FAILURE⟩ := by
      simp [main, hinit]
    rw [e] at h
    simp at h
  · by_cases hwin : env.glfwCreateWindow = 0
    · have e : main env fuel
          = ⟨windowSetup env 0 ++ [Event.glfwTerminate], some ExitStatus.EXIT_FAILURE⟩ := by
        simp [main, hinit, hwin]
      rw [e] at h
      simp [windowSetup] at h
    · have hloop : ∀ e ∈ (renderLoop env [env.glfwCreateWindow] fuel 0).1,
          e = Event.glfwSetWindowShouldClose w v →
            v = GLFW_TRUE ∧ w = env.glfwCreateWindow ∧ ∃ i, env.shouldClose i w = true := by
        apply renderLoop_forall
        intro j e he heq
        subst heq
        cases hs : env.shouldClose j env.glfwCreateWindow
        · rw [loopBody_clear env _ j hwin hs] at he
          simp [render] at he
        · rw [loopBody_set env _ j hwin hs] at he
          simp only [render, List.mem_cons, List.mem_singleton, List.not_mem_nil, or_false,
            reduceCtorEq, false_or, Event.glfwSetWindowShouldClose.injEq] at he
          obtain ⟨rfl, rfl⟩ := he
          exact ⟨rfl, rfl, j, hs⟩
      have hpre : Event.glfwSetWindowShouldClose w v ∉ windowSetup env 0 ++
          [Event.glfwSetKeyCallback env.glfwCreateWindow, Event.glfwSwapInterval 1] := by
        simp [windowSetup]
      have hset : Event.glfwSetWindowShouldClose w v ∉ setup env := by
        intro hm
        have := setup_not_inRenderLoop env _ hm
        simp [Event.inRenderLoop] at this
      have hshut : Event.glfwSetWindowShouldClose w v ∉ shutdown [env.glfwCreateWindow] := by
        simp [shutdown]
      rw [main_running env fuel hinit hwin] at h
      split at h
      · simp only [List.mem_append] at h
        rcases h with ((h | h) | h) | h
        · exact absurd (List.mem_append.2 h) hpre
        · exact absurd h hset
        · exact hloop _ h rfl
        · exact absurd h hshut
      · simp only [List.mem_append] at h
        rcases h with (h | h) | h
        · exact absurd (List.mem_append.2 h) hpre
        · exact absurd h hset
        · exact hloop _ h rfl

/-- C14: every `glfwSetWindowShouldClose` call, in `KeyCallback` and in any
run of `main`, passes `GLFW_TRUE`; the per-window check makes the call only on
a window for which `glfwWindowShouldClose` has just answered true, so that,
answered from the flags, the check leaves every close flag as it was; and
through the calls of a run of `main` or of `KeyCallback` a flag that is set
stays set. -/
theorem close_request_never_withdrawn :
    (∀ (window : Window) (key scancode action mods : Int) (w : Window) (v : Int),
      Event.glfwSetWindowShouldClose w v ∈ KeyCallback window key scancode action mods →
        v = GLFW_TRUE) ∧
    (∀ (env : Env) (fuel : Nat) (w : Window) (v : Int),
      Event.glfwSetWindowShouldClose w v ∈ (main env fuel).trace →
        v = GLFW_TRUE ∧ ∃ i, env.shouldClose i w = true) ∧
    (∀ (flags : CloseFlags) (window : List Window) (w : Window) (v : Int),
      Event.glfwSetWindowShouldClose w v ∈ (closeCheck flags window).1 →
        v = GLFW_TRUE ∧ flags w = true) ∧
    (∀ (flags : CloseFlags) (window : List Window),
      answersAgree flags (closeCheck flags window).1 ∧
      closeFlagsAfter flags (closeCheck flags window).1 = flags) ∧
    (∀ (env : Env) (fuel : Nat) (flags : CloseFlags) (w : Window),
      flags w = true → closeFlagsAfter flags (main env fuel).trace w = true) ∧
    (∀ (window : Window) (key scancode action mods : Int) (flags : CloseFlags) (w : Window),
      flags w = true →
        closeFlagsAfter flags (KeyCallback window key scancode action mods) w = true) := by
  have hkey : ∀ (window : Window) (key scancode action mods : Int) (w : Window) (v : Int),
      Event.glfwSetWindowShouldClose w v ∈ KeyCallback window key scancode action mods →
        v = GLFW_TRUE := by
    intro window key scancode action mods w v h
    simp only [KeyCallback] at h
    split_ifs at h
    · simp only [List.mem_singleton, Event.glfwSetWindowShouldClose.injEq] at h
      exact h.2
    · simp at h
  refine ⟨hkey, ?_, ?_, closeCheck_flags, ?_, ?_⟩
  · intro env fuel w v h
    obtain ⟨h1, _, h3⟩ := set_in_main env fuel w v h
    exact ⟨h1, h3⟩
  · intro flags window w v h
    rw [closeCheck_calls] at h
    obtain ⟨x, _, hx⟩ := List.mem_flatMap.1 h
    obtain ⟨_, h2, h3⟩ := mem_windowCheckCalls flags x w v hx
    exact ⟨h2, h3⟩
  · intro env fuel flags w h
    exact closeFlagsAfter_keeps _ flags w
      (fun w2 v hm => (set_in_main env fuel w2 v hm).1) h
  · intro window key scancode action mods flags w h
    exact closeFlagsAfter_keeps _ flags w
      (fun w2 v hm => hkey window key scancode action mods w2 v hm) h

/-- C14 at a concrete run: window 7 is found closed in every iteration, the
run calls `glfwSetWindowShouldClose (7, GLFW_TRUE)`, and the flag of window 7,
if set, is still set after the run. -/
theorem close_request_never_withdrawn_witness :
    Event.glfwSetWindowShouldClose 7 GLFW_TRUE ∈ (main failingEnv 1).trace ∧
    closeFlagsAfter (fun _ => true) (main failingEnv 1).trace 7 = true ∧
    closeFlagsAfter (fun w => decide (w = 7)) (closeCheck (fun w => decide (w = 7)) [7, 8]).1
      = (fun w => decide (w = 7)) :=
  ⟨by decide,
   close_request_never_withdrawn.2.2.2.2.1 failingEnv 1 (fun _ => true) 7 rfl,
   (close_request_never_withdrawn.2.2.2.1 (fun w => decide (w = 7)) [7, 8]).2⟩

/-! ### Frames -/

theorem closeChecks_main (env : Env) (fuel : Nat) (hinit : env.glfwInit = true)
    (hwin : env.glfwCreateWindow ≠ 0) :
    closeChecks (main env fuel).trace
      = closeChecks (renderLoop env [env.glfwCreateWindow] fuel 0).1 := by
  have hpre : closeChecks (windowSetup env 0 ++
      [Event.glfwSetKeyCallback env.glfwCreateWindow, Event.glfwSwapInterval 1]) = [] := rfl
  have hshut : closeChecks (shutdown [env.glfwCreateWindow]) = [] := rfl
  rw [main_running env fuel hinit hwin]
  split
  · simp only [closeChecks_append, hpre, closeChecks_setup, hshut, List.nil_append,
      List.append_nil]
  · simp only [closeChecks_append, hpre, closeChecks_setup, List.nil_append]

/-- What a run that got past initialization shows: one frame per close check
of the render loop. -/
theorem output_main (env : Env) (fuel : Nat) (hinit : env.glfwInit = true)
    (hwin : env.glfwCreateWindow ≠ 0) :
    (glRun GLState.initial (main env fuel).trace).output =
      (List.replicate (closeChecks (renderLoop env [env.glfwCreateWindow] fuel 0).1).length
        (specFrame env)).flatten := by
  have hstart : glRun GLState.initial (windowSetup env 0 ++
      [Event.glfwSetKeyCallback env.glfwCreateWindow, Event.glfwSwapInterval 1])
        = GLState.initial := rfl
  have hset := glRun_proj (fun x : GLState => (x.polygonMode, x.output)) Event.inRenderLoop
    glStep_drawing (setup env) GLState.initial (setup_not_inRenderLoop env)
  simp only [Prod.mk.injEq] at hset
  obtain ⟨_, h2⟩ := glRun_renderLoop_output env hwin fuel 0
    (glRun GLState.initial (setup env)) hset.1
  rw [hset.2] at h2
  have hshut : ∀ s : GLState, glRun s (shutdown [env.glfwCreateWindow]) = s := fun _ => rfl
  rw [main_running env fuel hinit hwin]
  split
  · simp only [glRun_append, hstart, hshut]
    simpa [GLState.initial] using h2
  · simp only [glRun_append, hstart]
    simpa [GLState.initial] using h2

/-- The loop ends with the whole body of the iteration whose check found the
flag set. -/
theorem renderLoop_last_body (env : Env) (w : Window) (hw : w ≠ 0) :
    ∀ k fuel i, (∀ j, j < k → env.shouldClose (i + j) w = false) →
      env.shouldClose (i + k) w = true → k < fuel →
      ∃ before, (renderLoop env [w] fuel i).1 =
        before ++ (Event.glfwWindowShouldClose w true ::
          Event.glfwSetWindowShouldClose w GLFW_TRUE ::
          render [w] env.createProgram env.VAO1 env.createProgram2
            env.genVertexArrays2.1) := by
  intro k
  induction k with
  | zero =>
    intro fuel i _ hset hk
    obtain ⟨f, rfl⟩ : ∃ f, fuel = f + 1 := ⟨fuel - 1, by omega⟩
    have hset0 : env.shouldClose i w = true := by simpa using hset
    simp only [renderLoop, loopBody_set env w i hw hset0, if_true]
    exact ⟨[], rfl⟩
  | succ k ih =>
    intro fuel i h hset hk
    obtain ⟨f, rfl⟩ : ∃ f, fuel = f + 1 := ⟨fuel - 1, by omega⟩
    have h0 : env.shouldClose i w = false := by simpa using h 0 (Nat.succ_pos _)
    have hrest : ∀ j, j < k → env.shouldClose (i + 1 + j) w = false := by
      intro j hj
      have := h (j + 1) (Nat.succ_lt_succ hj)
      rwa [show i + (j + 1) = i + 1 + j by omega] at this
    have hset1 : env.shouldClose (i + 1 + k) w = true := by
      rwa [show i + (k + 1) = i + 1 + k by omega] at hset
    obtain ⟨b, hb⟩ := ih f (i + 1) hrest hset1 (by omega)
    simp only [renderLoop, loopBody_clear env w i hw h0, Bool.false_eq_true, if_false, hb]
    exact ⟨_, (List.append_assoc _ _ _).symm⟩

/-- A loop that has ended made at least one close check. -/
theorem renderLoop_ended_checks (env : Env) (w : Window) (hw : w ≠ 0) (fuel i : Nat)
    (h : (renderLoop env [w] fuel i).2 = true) :
    1 ≤ (closeChecks (renderLoop env [w] fuel i).1).length := by
  cases fuel with
  | zero => simp [renderLoop] at h
  | succ f =>
    simp only [renderLoop]
    split
    · rw [closeChecks_loopBody env w hw]; simp
    · rw [closeChecks_append, closeChecks_loopBody env w hw]; simp

/-- C15: with initialization done, in either memory layout, if the close flag
is first found set by the check of iteration `n` (counted from 1), the run
exits having shown exactly `n` frames, and its last calls before the shutdown are the check that found
the flag set followed by the whole rest of the loop body (clear, both draws,
swap, poll); in particular a run whose flag is set at the first check shows
one frame; and every run that exits with `EXIT_SUCCESS` has shown at least one
frame. -/
theorem full_frame_after_close_observed (env : Env) (hinit : env.glfwInit = true)
    (hwin : env.glfwCreateWindow ≠ 0) :
    (∀ n, 1 ≤ n →
      (∀ i, i + 1 < n → env.shouldClose i env.glfwCreateWindow = false) →
      env.shouldClose (n - 1) env.glfwCreateWindow = true →
      ∀ fuel, n ≤ fuel →
        (main env fuel).exit = some ExitStatus.EXIT_SUCCESS ∧
        (glRun GLState.initial (main env fuel).trace).output =
          (List.replicate n (specFrame env)).flatten ∧
        ∃ before, (main env fuel).trace =
          before ++ (Event.glfwWindowShouldClose env.glfwCreateWindow true ::
            Event.glfwSetWindowShouldClose env.glfwCreateWindow GLFW_TRUE ::
            render [env.glfwCreateWindow] env.createProgram env.VAO1
              env.createProgram2 env.genVertexArrays2.1) ++
            shutdown [env.glfwCreateWindow]) ∧
    (env.shouldClose 0 env.glfwCreateWindow = true →
      ∀ fuel, 1 ≤ fuel →
        (main env fuel).exit = some ExitStatus.EXIT_SUCCESS ∧
        (glRun GLState.initial (main env fuel).trace).output = specFrame env) ∧
    (∀ fuel, (main env fuel).exit = some ExitStatus.EXIT_SUCCESS →
      ∃ k, 1 ≤ k ∧
        (glRun GLState.initial (main env fuel).trace).output =
          (List.replicate k (specFrame env)).flatten) := by
  have first : ∀ n, 1 ≤ n →
      (∀ i, i + 1 < n → env.shouldClose i env.glfwCreateWindow = false) →
      env.shouldClose (n - 1) env.glfwCreateWindow = true →
      ∀ fuel, n ≤ fuel →
        (main env fuel).exit = some ExitStatus.EXIT_SUCCESS ∧
        (glRun GLState.initial (main env fuel).trace).output =
          (List.replicate n (specFrame env)).flatten ∧
        ∃ before, (main env fuel).trace =
          before ++ (Event.glfwWindowShouldClose env.glfwCreateWindow true ::
            Event.glfwSetWindowShouldClose env.glfwCreateWindow GLFW_TRUE ::
            render [env.glfwCreateWindow] env.createProgram env.VAO1
              env.createProgram2 env.genVertexArrays2.1) ++
            shutdown [env.glfwCreateWindow] := by
    intro n hn hclear hset fuel hfuel
    have hc : ∀ j, j < n - 1 → env.shouldClose (0 + j) env.glfwCreateWindow = false := by
      intro j hj
      rw [Nat.zero_add]
      exact hclear j (by omega)
    have hs : env.shouldClose (0 + (n - 1)) env.glfwCreateWindow = true := by
      rw [Nat.zero_add]; exact hset
    obtain ⟨e1, e2, _⟩ := renderLoop_until_set env _ hwin (n - 1) fuel 0 hc hs (by omega)
    obtain ⟨b, hb⟩ := renderLoop_last_body env _ hwin (n - 1) fuel 0 hc hs (by omega)
    refine ⟨?_, ?_, ?_⟩
    · rw [main_running env fuel hinit hwin, e1]
      rfl
    · rw [output_main env fuel hinit hwin, e2, List.length_append, List.length_replicate,
        List.length_singleton, Nat.sub_add_cancel hn]
    · rw [main_running env fuel hinit hwin, e1, hb]
      simp only [if_true]
      exact ⟨windowSetup env 0 ++
        [Event.glfwSetKeyCallback env.glfwCreateWindow, Event.glfwSwapInterval 1] ++
        setup env ++ b, by simp only [List.append_assoc]⟩
  refine ⟨first, ?_, ?_⟩
  · intro h0 fuel hfuel
    obtain ⟨a1, a2, _⟩ := first 1 (Nat.le_refl 1) (fun i hi => absurd hi (by omega)) h0 fuel hfuel
    refine ⟨a1, ?_⟩
    rw [a2]
    simp
  · intro fuel hexit
    obtain ⟨_, _, hend⟩ := exit_success env fuel hexit
    exact ⟨_, renderLoop_ended_checks env _ hwin fuel 0 hend, output_main env fuel hinit hwin⟩

/-- C15 at concrete runs: the flag first found set in the third iteration gives
three frames; the flag set from the start gives one. -/
theorem full_frame_after_close_observed_witness :
    ((main sampleEnv 5).exit = some ExitStatus.EXIT_SUCCESS ∧
      (glRun GLState.initial (main sampleEnv 5).trace).output =
        (List.replicate 3 (specFrame sampleEnv)).flatten) ∧
    ((main failingEnv 1).exit = some ExitStatus.EXIT_SUCCESS ∧
      (glRun GLState.initial (main failingEnv 1).trace).output = specFrame failingEnv) :=
  ⟨⟨((full_frame_after_close_observed sampleEnv rfl (by decide)).1 3 (by decide)
        (by intro i hi; simp only [sampleEnv, decide_eq_false_iff_not]; omega)
        (by decide) 5 (by decide)).1,
    ((full_frame_after_close_observed sampleEnv rfl (by decide)).1 3 (by decide)
        (by intro i hi; simp only [sampleEnv, decide_eq_false_iff_not]; omega)
        (by decide) 5 (by decide)).2.1⟩,
   (full_frame_after_close_observed failingEnv rfl (by decide)).2.1 rfl 1 (by decide)⟩

end Untitled1
